import Mathlib

/-!
# python-tokyotyrant: the record marshaler, the error translator, the query executor
and the connection's accessors

A shallow embedding of `src/tokyotyrant.c`, the CPython 2 extension module that binds
the Tokyo Tyrant client library.

Conventions of the embedding.

* A Python `str` is a byte string, `Bytes`.  A `char *` that points at such a buffer is
  modelled by the buffer's content; code that reads the pointer as a C string sees
  `cstr buf`, the bytes before the first zero byte.
* A pointer-valued C result is an `Option`; `none` is `NULL`.
* The interpreter's error indicator is explicit (`PyErr`), so "returned `NULL`" and
  "an exception is set" are separate facts.
* The remote store and the client library that talks to it are outside the repository.
  They appear as a `Store`: an oracle answering each library call, as a function of
  the calls issued before it.  Every call that reaches the store is recorded as a
  `StoreCall`.
* Memory allocation (`PyDict_New`, `PyList_New`, `PyString_From...`, `malloc`,
  `tcmapnew`) is taken to succeed, and list lengths to fit a C `int`.
-/

namespace TokyoTyrant

/-! ## Byte strings and C strings -/

/-- A byte string: the content of a Python 2 `str` or of a length-delimited buffer. -/
abbrev Bytes := List (Fin 256)

/-- What `strlen`-based code reads through a `char *` that points at `buf`
(Python keeps a terminating zero after the buffer): the bytes before the first zero. -/
def cstr (buf : Bytes) : Bytes := buf.takeWhile (fun b => b ≠ 0)

/-! ## Handles of the client library -/

/-- A `TCRDB *`: one connection object of the client library. -/
abbrev TCRDB := Nat

/-- An `RDBQRY *`: a query object of the client library.  It is created on one
connection (`tcrdbqrynew(db)`) and accumulates the conditions added to it. -/
structure RDBQRY where
  rdb : TCRDB
  conds : List (Bytes × Int × Bytes)
deriving DecidableEq, Repr

/-- The Python object `Tyrant`: `struct { PyObject_HEAD TCRDB *db; }`. -/
structure Tyrant where
  db : TCRDB
deriving DecidableEq, Repr

/-- The Python object `TyrantQuery`: `struct { PyObject_HEAD RDBQRY *q; }`. -/
structure TyrantQuery where
  q : RDBQRY
deriving DecidableEq, Repr

/-! ## Python values -/

/-- The Python values the module can be handed or can return.  A `dict` is the
sequence of its entries in the order `PyDict_Next` enumerates them. -/
inductive PyObject where
  | none
  | int (n : Int)
  | str (s : Bytes)
  | list (items : List PyObject)
  | tuple (items : List PyObject)
  | dict (items : List (PyObject × PyObject))
  | tyrant (t : Tyrant)
  | query (t : TyrantQuery)

/-- The exception types the module raises. -/
inductive PyExc where
  | TypeError
  | ValueError
  | KeyError
  | MemoryError
  | OverflowError
  | Exception
  | TyrantError
deriving DecidableEq, Repr

/-- The error indicator when set: `PyErr_SetString(type, msg)`. -/
structure PyErr where
  type : PyExc
  msg : String
deriving DecidableEq, Repr

/-- The macro `PyString_Check`. -/
def PyString_Check : PyObject → Bool
  | .str _ => true
  | _ => false

/-- `PyString_AsString`: a pointer to the string's buffer, `NULL` (with `TypeError`
set) for an object that is not a string. -/
def PyString_AsString : PyObject → Option Bytes
  | .str s => some s
  | _ => none

/-- `PyString_FromString(v)`: a new string holding the C string at `v`. -/
def PyString_FromString (v : Bytes) : PyObject := .str (cstr v)

/-- `PyString_FromStringAndSize(v, len)`: a new string holding exactly the `len` bytes. -/
def PyString_FromStringAndSize (v : Bytes) : PyObject := .str v

/-- `PyDict_SetItemString(dict, key, value)`: binds the string key `key` to `value`,
replacing the value of an entry with that key or adding a new entry. -/
def PyDict_SetItemString :
    List (PyObject × PyObject) → Bytes → PyObject → List (PyObject × PyObject)
  | [], key, value => [(.str key, value)]
  | (k, v) :: rest, key, value =>
    if PyString_AsString k = some key then (k, value) :: rest
    else (k, v) :: PyDict_SetItemString rest key value

/-- `PyDict_GetItemString(dict, key)`: the value bound to the string key `key`. -/
def PyDict_GetItemString : List (PyObject × PyObject) → Bytes → Option PyObject
  | [], _ => none
  | (k, v) :: rest, key =>
    if PyString_AsString k = some key then some v else PyDict_GetItemString rest key

/-! ## The association structure `TCMAP` of the client library -/

/-- A `TCMAP`, the wire-level association of the client library: records of (key bytes,
value bytes), unique by key, enumerated in insertion order. -/
abbrev TCMAP := List (Bytes × Bytes)

/-- Modelled from the spec: `tcmapnew` of the client library (not part of the
repository), the empty association. -/
def tcmapnew : TCMAP := []

/-- Modelled from the spec: `tcmapput` of the client library (not part of the
repository).  Keys are unique and the native order is insertion order: a record with
the same key is overwritten where it stands, a new key is appended. -/
def tcmapput : TCMAP → Bytes → Bytes → TCMAP
  | [], k, v => [(k, v)]
  | (k0, v0) :: rest, k, v =>
    if k0 = k then (k0, v) :: rest else (k0, v0) :: tcmapput rest k v

/-- Modelled from the spec: `tcmapput2(map, kstr, vstr)` of the client library (not
part of the repository), `tcmapput` on the two C strings.  Its arguments must not be
`NULL`: it takes `strlen` of both.  `none` stands for that undefined behaviour. -/
def tcmapput2 (map : TCMAP) (kstr vstr : Option Bytes) : Option TCMAP :=
  match kstr, vstr with
  | some k, some v => some (tcmapput map (cstr k) (cstr v))
  | _, _ => none

/-- Modelled from the spec: `tcmapget` of the client library (not part of the
repository): the value stored under exactly the key `k`, `NULL` when there is none. -/
def tcmapget : TCMAP → Bytes → Option Bytes
  | [], _ => none
  | (k0, v0) :: rest, k => if k0 = k then some v0 else tcmapget rest k

/-- Modelled from the spec: `tcmapget2(map, kstr)` of the client library (not part of
the repository), `tcmapget` with the C string at `kstr` as key. -/
def tcmapget2 (map : TCMAP) (kstr : Bytes) : Option Bytes := tcmapget map (cstr kstr)

/-- The result of a C function that returns a pointer and may raise. -/
inductive CRet (α : Type) where
  /-- a non-`NULL` result, error indicator untouched -/
  | ok (val : α)
  /-- `NULL`, with the error indicator set to `err` -/
  | null (err : PyErr)
  /-- undefined behaviour: a `NULL` pointer handed to `strlen` -/
  | crash

/-! ## The record marshaler (`tokyotyrant.c` lines 8-100) -/

/-- The `while (kstr != NULL)` loop of `tcmap2pydict`: `iter` holds the records the
iterator has still to yield (`tcmapiternext2` yields each key as a C string), `dict`
the entries set so far. -/
def tcmap2pydict_loop (map : TCMAP) :
    List (Bytes × Bytes) → List (PyObject × PyObject) → CRet PyObject
  | [], dict => .ok (.dict dict)
  | (kbuf, _) :: iter, dict =>
    match tcmapget2 map kbuf with
    | none => .null ⟨.MemoryError, "Could not allocate memory for map value."⟩
    | some vstr =>
      tcmap2pydict_loop map iter
        (PyDict_SetItemString dict (cstr kbuf) (PyString_FromString vstr))

/-- `tcmap2pydict(map)`: decodes an association into a fresh dict. -/
def tcmap2pydict (map : TCMAP) : CRet PyObject := tcmap2pydict_loop map map []

/-- The `while (PyDict_Next(...))` loop of `pydict2tcmap`: `entries` are the entries
still to visit, `map` the association built so far. -/
def pydict2tcmap_loop : List (PyObject × PyObject) → TCMAP → CRet TCMAP
  | [], map => .ok map
  | (key, value) :: entries, map =>
    if !PyString_Check value then
      .null ⟨.TypeError, "All values must be strings."⟩
    else
      match tcmapput2 map (PyString_AsString key) (PyString_AsString value) with
      | none => .crash
      | some map1 => pydict2tcmap_loop entries map1

/-- `pydict2tcmap(dict)`: encodes a dict as an association. -/
def pydict2tcmap (dict : PyObject) : CRet TCMAP :=
  match dict with
  | .dict entries => pydict2tcmap_loop entries tcmapnew
  | _ => .null ⟨.TypeError, "Argument is not a dict."⟩

/-! ## The store boundary -/

/-- A call that reaches the remote store through the client library. -/
inductive StoreCall where
  /-- `tcrdbget(db, kbuf, ksiz, &vsiz)` -/
  | tcrdbget (db : TCRDB) (kbuf : Bytes)
  /-- `tcrdbtblput(db, kbuf, ksiz, cols)` -/
  | tcrdbtblput (db : TCRDB) (kbuf : Bytes) (cols : TCMAP)
  /-- `tcrdbtblputkeep(db, kbuf, ksiz, cols)` -/
  | tcrdbtblputkeep (db : TCRDB) (kbuf : Bytes) (cols : TCMAP)
  /-- `tcrdbtblputcat(db, kbuf, ksiz, cols)` -/
  | tcrdbtblputcat (db : TCRDB) (kbuf : Bytes) (cols : TCMAP)
  /-- `tcrdbmetasearch(qrys, num, type)` -/
  | tcrdbmetasearch (qrys : List RDBQRY) (num : Nat) (type : Int)
  /-- `tcrdbqrysearch(q)` -/
  | tcrdbqrysearch (q : RDBQRY)
  /-- `tcrdbqrysearchout(q)` -/
  | tcrdbqrysearchout (q : RDBQRY)
  /-- `tcrdbqrysearchget(q)` -/
  | tcrdbqrysearchget (q : RDBQRY)
  /-- `tcrdbtblget(db, kbuf, ksiz)` -/
  | tcrdbtblget (db : TCRDB) (kbuf : Bytes)
  /-- `tcrdbrnum(db)` -/
  | tcrdbrnum (db : TCRDB)
  /-- `tcrdbsize(db)` -/
  | tcrdbsize (db : TCRDB)
  /-- `tcrdbvsiz(db, kbuf, ksiz)` -/
  | tcrdbvsiz (db : TCRDB) (kbuf : Bytes)
deriving DecidableEq, Repr

/-- The client library with the remote store behind it.  Each answer is a function of
the calls issued so far (`hist`, oldest first) and of the call's arguments.
`tcrdbecode` and `tcrdberrmsg` read the connection object and a message table; they
send nothing.  `TCENOREC` is the library's constant for "no record found". -/
structure Store where
  /-- the value bytes (`vsiz` of them), or `NULL` -/
  tcrdbget : List StoreCall → TCRDB → Bytes → Option Bytes
  tcrdbtblput : List StoreCall → TCRDB → Bytes → TCMAP → Bool
  tcrdbtblputkeep : List StoreCall → TCRDB → Bytes → TCMAP → Bool
  tcrdbtblputcat : List StoreCall → TCRDB → Bytes → TCMAP → Bool
  /-- the list of keys, or `NULL` -/
  tcrdbmetasearch : List StoreCall → List RDBQRY → Nat → Int → Option (List Bytes)
  /-- the list of matching keys, or `NULL` -/
  tcrdbqrysearch : List StoreCall → RDBQRY → Option (List Bytes)
  /-- whether the search-and-delete succeeded -/
  tcrdbqrysearchout : List StoreCall → RDBQRY → Bool
  /-- the list of matching rows, each the serialized columns of a record, or `NULL` -/
  tcrdbqrysearchget : List StoreCall → RDBQRY → Option (List Bytes)
  /-- `tcrdbqryrescols(results, i)`: the columns of row `i` of a `tcrdbqrysearchget`
  result, or `NULL`; it reads the result list and sends nothing -/
  tcrdbqryrescols : List Bytes → Nat → Option TCMAP
  /-- the columns of the record, or `NULL` -/
  tcrdbtblget : List StoreCall → TCRDB → Bytes → Option TCMAP
  /-- the number of records; the C variable holds it as a `uint64_t` -/
  tcrdbrnum : List StoreCall → TCRDB → Nat
  /-- the size of the database; the C variable holds it as a `uint64_t` -/
  tcrdbsize : List StoreCall → TCRDB → Nat
  /-- the size of the value of the record, a C `int`; -1 when the lookup fails -/
  tcrdbvsiz : List StoreCall → TCRDB → Bytes → Int
  /-- the last error code of the connection -/
  tcrdbecode : List StoreCall → TCRDB → Int
  /-- the message string of an error code -/
  tcrdberrmsg : Int → String
  TCENOREC : Int

/-- How a call of one of the module's functions ends. -/
inductive Outcome where
  /-- it returned `ret` (`none` is `NULL`), leaving the error indicator `err`, after
  issuing `calls` to the store -/
  | returned (ret : Option PyObject) (err : Option PyErr) (calls : List StoreCall)
  /-- undefined behaviour (a `NULL` pointer handed to `strlen`) after issuing `calls` -/
  | crashed (calls : List StoreCall)

/-- The calls a function issued to the store. -/
def Outcome.calls : Outcome → List StoreCall
  | .returned _ _ calls => calls
  | .crashed calls => calls

/-- The function raised `exc`: it returned `NULL` with the error indicator set to an
exception of that type. -/
def Outcome.raises (o : Outcome) (exc : PyExc) : Prop :=
  ∃ msg calls, o = .returned none (some ⟨exc, msg⟩) calls

/-! ## The error translator (`tokyotyrant.c` lines 106-120) -/

/-- `raise_tyrant_error(db)`: the exception it sets. -/
def raise_tyrant_error (st : Store) (hist : List StoreCall) (db : TCRDB) : PyErr :=
  let code := st.tcrdbecode hist db
  let msg := st.tcrdberrmsg code
  if code = st.TCENOREC then ⟨.KeyError, msg⟩ else ⟨.TyrantError, msg⟩

/-! ## Argument parsing -/

/-- The failure of `PyArg_ParseTuple` / `PyArg_ParseTupleAndKeywords` on arguments
that do not fit the format: `TypeError` (the interpreter's message text is not
modelled). -/
def argError : PyErr := ⟨.TypeError, "argument mismatch"⟩

/-- The format unit `i`: a Python integer that fits a C `int`. -/
def parseInt : PyObject → Except PyErr Int
  | .int n =>
    if -2147483648 ≤ n ∧ n ≤ 2147483647 then .ok n
    else .error ⟨.OverflowError, "signed integer is out of range"⟩
  | _ => .error argError

/-- `PyArg_ParseTupleAndKeywords(args, kwargs, "s#|O", {"key", "default"}, ...)`:
a string `key` and an optional `default`, each given by position or by keyword. -/
def parseGetArgs (args : List PyObject) (kwargs : List (String × PyObject)) :
    Except PyErr (Bytes × Option PyObject) :=
  match args, kwargs with
  | [.str k], [] => .ok (k, none)
  | [.str k, d], [] => .ok (k, some d)
  | [.str k], [(name, d)] => if name = "default" then .ok (k, some d) else .error argError
  | [], [(name, .str k)] => if name = "key" then .ok (k, none) else .error argError
  | [], [(n1, .str k), (n2, d)] =>
    if n1 = "key" ∧ n2 = "default" then .ok (k, some d) else .error argError
  | [], [(n1, d), (n2, .str k)] =>
    if n1 = "default" ∧ n2 = "key" then .ok (k, some d) else .error argError
  | _, _ => .error argError

/-- `PyArg_ParseTuple(args, "s#O", ...)`: a string and any object. -/
def parsePutArgs : List PyObject → Except PyErr (Bytes × PyObject)
  | [.str k, dict] => .ok (k, dict)
  | _ => .error argError

/-- `PyArg_ParseTuple(args, "Oi", ...)`: any object and an `int`. -/
def parseMetasearchArgs : List PyObject → Except PyErr (PyObject × Int)
  | [pyqueries, t] =>
    match parseInt t with
    | .ok type => .ok (pyqueries, type)
    | .error e => .error e
  | _ => .error argError

/-! ## `Tyrant.get` (`tokyotyrant.c` lines 718-755) -/

/-- `Tyrant_get(self, args, kwargs)`. -/
def Tyrant_get (st : Store) (hist : List StoreCall) (self : Tyrant)
    (args : List PyObject) (kwargs : List (String × PyObject)) : Outcome :=
  match parseGetArgs args kwargs with
  | .error e => .returned none (some e) []
  | .ok (kbuf, default_value) =>
    match st.tcrdbget hist self.db kbuf with
    | none =>
      match default_value with
      | some d => .returned (some d) none [.tcrdbget self.db kbuf]
      | none => .returned (some .none) none [.tcrdbget self.db kbuf]
    | some vbuf =>
      .returned (some (PyString_FromStringAndSize vbuf)) none [.tcrdbget self.db kbuf]

/-! ## The table puts (`tokyotyrant.c` lines 1052-1158) -/

/-- The body the three table puts share: parse, encode, one store call `put` recorded
as `call`, translate a failure. -/
def tblputWith (st : Store) (hist : List StoreCall) (self : Tyrant)
    (put : List StoreCall → TCRDB → Bytes → TCMAP → Bool)
    (call : TCRDB → Bytes → TCMAP → StoreCall) (args : List PyObject) : Outcome :=
  match parsePutArgs args with
  | .error e => .returned none (some e) []
  | .ok (kbuf, dict) =>
    match pydict2tcmap dict with
    | .null e => .returned none (some e) []
    | .crash => .crashed []
    | .ok cols =>
      let success := put hist self.db kbuf cols
      if !success then
        .returned none
          (some (raise_tyrant_error st (hist ++ [call self.db kbuf cols]) self.db))
          [call self.db kbuf cols]
      else .returned (some .none) none [call self.db kbuf cols]

/-- `Tyrant_tblput(self, args)`. -/
def Tyrant_tblput (st : Store) (hist : List StoreCall) (self : Tyrant)
    (args : List PyObject) : Outcome :=
  tblputWith st hist self st.tcrdbtblput .tcrdbtblput args

/-- `Tyrant_tblputkeep(self, args)`. -/
def Tyrant_tblputkeep (st : Store) (hist : List StoreCall) (self : Tyrant)
    (args : List PyObject) : Outcome :=
  tblputWith st hist self st.tcrdbtblputkeep .tcrdbtblputkeep args

/-- `Tyrant_tblputcat(self, args)`. -/
def Tyrant_tblputcat (st : Store) (hist : List StoreCall) (self : Tyrant)
    (args : List PyObject) : Outcome :=
  tblputWith st hist self st.tcrdbtblputcat .tcrdbtblputcat args

/-! ## `Tyrant.metasearch` (`tokyotyrant.c` lines 1284-1364) -/

/-- The first loop of `Tyrant_metasearch`: `queries[i] = ((TyrantQuery *) item)->q` for
each item in turn; `none` as soon as an item fails `PyObject_TypeCheck`. -/
def metasearch_queries : List PyObject → Option (List RDBQRY)
  | [] => some []
  | .query t :: items =>
    match metasearch_queries items with
    | some qs => some (t.q :: qs)
    | none => none
  | _ :: _ => none

/-- The second loop of `Tyrant_metasearch`: element `i` of the result list is
`PyString_FromStringAndSize(tclistval(results, i, &vsiz), vsiz)`. -/
def metasearch_results : List Bytes → List PyObject
  | [] => []
  | vbuf :: results => PyString_FromStringAndSize vbuf :: metasearch_results results

/-- `Tyrant_metasearch(self, args)`. -/
def Tyrant_metasearch (st : Store) (hist : List StoreCall) (_self : Tyrant)
    (args : List PyObject) : Outcome :=
  match parseMetasearchArgs args with
  | .error e => .returned none (some e) []
  | .ok (pyqueries, type) =>
    match pyqueries with
    | .list items =>
      let n := items.length
      if n = 0 then .returned (some (.list [])) none []
      else
        match metasearch_queries items with
        | none =>
          .returned none (some ⟨.TypeError, "Expected a list of tyrant query objects."⟩) []
        | some queries =>
          match st.tcrdbmetasearch hist queries n type with
          | none =>
            .returned none
              (some ⟨.MemoryError, "Cannot allocate memory for TCLIST object"⟩)
              [.tcrdbmetasearch queries n type]
          | some results =>
            .returned (some (.list (metasearch_results results))) none
              [.tcrdbmetasearch queries n type]
    | _ => .returned none none []


/-! ## `TyrantQuery.addcond` (`tokyotyrant.c` lines 193-213) -/

/-- The format unit `s`: a string without a zero byte, handed over as a C string; a
string with an embedded zero byte is refused with `TypeError`. -/
def parseCString : PyObject → Except PyErr Bytes
  | .str s => if (0 : Fin 256) ∈ s then .error argError else .ok s
  | _ => .error argError

/-- How `PyArg_ParseTupleAndKeywords` binds the parameters named in `kwlist`: the
positional arguments fill the first names, the keyword arguments the names they
give; too many arguments, an unknown keyword or a parameter given twice is an error.
The result holds, for each name of `kwlist`, the object bound to it, if any. -/
def bindArgs (kwlist : List String) (args : List PyObject)
    (kwargs : List (String × PyObject)) : Option (List (Option PyObject)) :=
  if kwlist.length < args.length then none
  else if kwargs.any (fun kw => !kwlist.contains kw.1) then none
  else if kwargs.any (fun kw => (kwlist.take args.length).contains kw.1) then none
  else some (args.map some ++ (kwlist.drop args.length).map (fun name => kwargs.lookup name))

/-- `PyArg_ParseTupleAndKeywords(args, kwargs, "si|s", {"name", "op", "expr"}, ...)`:
`expr` stays `NULL` when it is not given. -/
def parseAddcondArgs (args : List PyObject) (kwargs : List (String × PyObject)) :
    Except PyErr (Bytes × Int × Option Bytes) :=
  match bindArgs ["name", "op", "expr"] args kwargs with
  | some [some name, some op, expr] =>
    match parseCString name with
    | .error e => .error e
    | .ok name =>
      match parseInt op with
      | .error e => .error e
      | .ok op =>
        match expr with
        | none => .ok (name, op, none)
        | some expr =>
          match parseCString expr with
          | .error e => .error e
          | .ok expr => .ok (name, op, some expr)
  | _ => .error argError

/-- Modelled from the spec: `tcrdbqryaddcond(q, name, op, expr)` of the client library
(not part of the repository).  It appends the condition to the query's condition
sequence and sends nothing.  `expr` must not be `NULL`: the library takes its
`strlen`; `none` stands for that undefined behaviour. -/
def tcrdbqryaddcond (q : RDBQRY) (name : Bytes) (op : Int) (expr : Option Bytes) :
    Option RDBQRY :=
  match expr with
  | some e => some ⟨q.rdb, q.conds ++ [(cstr name, op, cstr e)]⟩
  | none => none

/-- `TyrantQuery_addcond(self, args, kwargs)`: how the call ends, and the query object
after it. -/
def TyrantQuery_addcond (self : TyrantQuery) (args : List PyObject)
    (kwargs : List (String × PyObject)) : Outcome × TyrantQuery :=
  match parseAddcondArgs args kwargs with
  | .error e => (.returned none (some e) [], self)
  | .ok (name, op, expr) =>
    match tcrdbqryaddcond self.q name op expr with
    | none => (.crashed [], self)
    | some q => (.returned (some .none) none [], ⟨q⟩)

/-! ## The query executor (`tokyotyrant.c` lines 254-356) -/

/-- `TyrantQuery_search(self)`.  Its loop over the result list is the loop of
`Tyrant_metasearch`: element `i` is
`PyString_FromStringAndSize(tclistval(results, i, &vsiz), vsiz)`. -/
def TyrantQuery_search (st : Store) (hist : List StoreCall) (self : TyrantQuery) : Outcome :=
  match st.tcrdbqrysearch hist self.q with
  | none =>
    .returned none (some ⟨.MemoryError, "Cannot allocate memory for TCLIST object"⟩)
      [.tcrdbqrysearch self.q]
  | some results =>
    .returned (some (.list (metasearch_results results))) none [.tcrdbqrysearch self.q]

/-- `Py_BuildValue("i", success)` on a C `bool`: the Python integer 1 or 0. -/
def Py_BuildValue_bool (success : Bool) : PyObject := .int (if success then 1 else 0)

/-- `TyrantQuery_searchout(self)`. -/
def TyrantQuery_searchout (st : Store) (hist : List StoreCall) (self : TyrantQuery) :
    Outcome :=
  .returned (some (Py_BuildValue_bool (st.tcrdbqrysearchout hist self.q))) none
    [.tcrdbqrysearchout self.q]

/-- The `for (i=0; i<n; i++)` loop of `TyrantQuery_searchget`: `indices` are the values
of `i` still to come, `pylist` the items set so far. -/
def searchget_loop (st : Store) (results : List Bytes) :
    List Nat → List PyObject → CRet (List PyObject)
  | [], pylist => .ok pylist
  | i :: indices, pylist =>
    match st.tcrdbqryrescols results i with
    | none => .null ⟨.MemoryError, "Cannot allocate memory for TCMAP object"⟩
    | some map =>
      match tcmap2pydict map with
      | .null e => .null e
      | .crash => .crash
      | .ok dict => searchget_loop st results indices (pylist ++ [dict])

/-- `TyrantQuery_searchget(self)`. -/
def TyrantQuery_searchget (st : Store) (hist : List StoreCall) (self : TyrantQuery) :
    Outcome :=
  match st.tcrdbqrysearchget hist self.q with
  | none =>
    .returned none (some ⟨.MemoryError, "Cannot allocate memory for TCLIST object"⟩)
      [.tcrdbqrysearchget self.q]
  | some results =>
    match searchget_loop st results (List.range results.length) [] with
    | .ok pylist => .returned (some (.list pylist)) none [.tcrdbqrysearchget self.q]
    | .null e => .returned none (some e) [.tcrdbqrysearchget self.q]
    | .crash => .crashed [.tcrdbqrysearchget self.q]

/-! ## `Tyrant.tblget` (`tokyotyrant.c` lines 1186-1217) -/

/-- `PyArg_ParseTuple(args, "s#", ...)`: one string. -/
def parseKeyArgs : List PyObject → Except PyErr Bytes
  | [.str k] => .ok k
  | _ => .error argError

/-- `Tyrant_tblget(self, args)`. -/
def Tyrant_tblget (st : Store) (hist : List StoreCall) (self : Tyrant)
    (args : List PyObject) : Outcome :=
  match parseKeyArgs args with
  | .error e => .returned none (some e) []
  | .ok kbuf =>
    match st.tcrdbtblget hist self.db kbuf with
    | none => .returned (some .none) none [.tcrdbtblget self.db kbuf]
    | some cols =>
      match tcmap2pydict cols with
      | .ok value => .returned (some value) none [.tcrdbtblget self.db kbuf]
      | .null e => .returned none (some e) [.tcrdbtblget self.db kbuf]
      | .crash => .crashed [.tcrdbtblget self.db kbuf]

/-! ## `Tyrant.rnum` and `Tyrant.size` (`tokyotyrant.c` lines 1013-1036) -/

/-- The value a `uint64_t` variable holds after it is assigned `n`. -/
def toUInt64 (n : Nat) : Nat := n % 2 ^ 64

/-- The conversion of a `uint64_t` to the `long long` parameter of
`PyLong_FromLongLong`: the value of the same 64 bits read as two's complement. -/
def toLongLong (u : Nat) : Int :=
  if u % 2 ^ 64 < 2 ^ 63 then ((u % 2 ^ 64 : Nat) : Int)
  else ((u % 2 ^ 64 : Nat) : Int) - 2 ^ 64

/-- `PyLong_FromLongLong(v)`: the Python integer of value `v`. -/
def PyLong_FromLongLong (v : Int) : PyObject := .int v

/-- `Tyrant_rnum(self)`. -/
def Tyrant_rnum (st : Store) (hist : List StoreCall) (self : Tyrant) : Outcome :=
  let rnum := toUInt64 (st.tcrdbrnum hist self.db)
  .returned (some (PyLong_FromLongLong (toLongLong rnum))) none [.tcrdbrnum self.db]

/-- `Tyrant_size(self)`. -/
def Tyrant_size (st : Store) (hist : List StoreCall) (self : Tyrant) : Outcome :=
  let fsiz := toUInt64 (st.tcrdbsize hist self.db)
  .returned (some (PyLong_FromLongLong (toLongLong fsiz))) none [.tcrdbsize self.db]

/-! ## `Tyrant.__getitem__` (`tokyotyrant.c` lines 1380-1420) -/

/-- `Tyrant_subscript(self, key)`. -/
def Tyrant_subscript (st : Store) (hist : List StoreCall) (self : Tyrant)
    (key : PyObject) : Outcome :=
  match key with
  | .str kbuf =>
    match st.tcrdbget hist self.db kbuf with
    | none =>
      .returned none
        (some (raise_tyrant_error st (hist ++ [.tcrdbget self.db kbuf]) self.db))
        [.tcrdbget self.db kbuf]
    | some vbuf =>
      .returned (some (PyString_FromStringAndSize vbuf)) none [.tcrdbget self.db kbuf]
  | _ => .returned none (some ⟨.ValueError, "Expected key to be a string."⟩) []

/-! ## `key in Tyrant` (`tokyotyrant.c` lines 1476-1500) -/

/-- How a call of a C function that returns an `int` ends: the value returned, the
error indicator, and the calls issued to the store. -/
structure IntOutcome where
  ret : Int
  err : Option PyErr
  calls : List StoreCall

/-- `Tyrant_contains(self, value)`, the `sq_contains` slot: 1 for "contained", 0 for
"not contained", -1 for an error. -/
def Tyrant_contains (st : Store) (hist : List StoreCall) (self : Tyrant)
    (value : PyObject) : IntOutcome :=
  match value with
  | .str kbuf =>
    let vsiz := st.tcrdbvsiz hist self.db kbuf
    ⟨if vsiz ≠ -1 then 1 else 0, none, [.tcrdbvsiz self.db kbuf]⟩
  | _ => ⟨-1, some ⟨.ValueError, "Expected value to be a string"⟩, []⟩


/-! ## Values used in the statements and examples -/

/-- The Python entry of a (column name, column value) pair of byte strings. -/
def pyEntry (kv : Bytes × Bytes) : PyObject × PyObject := (.str kv.1, .str kv.2)

/-- A store for examples: every `tcrdbget` answers `val`, every `tcrdbmetasearch`
answers `keys`, every table put fails, and the connection's error code is `code`.
Every `tcrdbtblget` answers the one-column record `c -> val`, every query search
answers `keys`, a row `b :: row` has the one column `b -> row` and an empty row has no
columns to extract, every search-and-delete fails, and the database is empty.
Every `tcrdbvsiz` answers the length of `val`, or -1 when there is none. -/
def sampleStore (val : Option Bytes) (keys : Option (List Bytes)) (code : Int) : Store where
  tcrdbget := fun _ _ _ => val
  tcrdbtblput := fun _ _ _ _ => false
  tcrdbtblputkeep := fun _ _ _ _ => false
  tcrdbtblputcat := fun _ _ _ _ => false
  tcrdbmetasearch := fun _ _ _ _ => keys
  tcrdbqrysearch := fun _ _ => keys
  tcrdbqrysearchout := fun _ _ => false
  tcrdbqrysearchget := fun _ _ => keys
  tcrdbqryrescols := fun results i =>
    match results[i]? with
    | some (b :: row) => some [([b], row)]
    | _ => none
  tcrdbtblget := fun _ _ _ => val.map (fun v => [([99], v)])
  tcrdbrnum := fun _ _ => 0
  tcrdbsize := fun _ _ => 0
  tcrdbvsiz := fun _ _ _ =>
    match val with
    | some v => (v.length : Int)
    | none => -1
  tcrdbecode := fun _ _ => code
  tcrdberrmsg := fun c => if c = 22 then "no record found" else "miscellaneous error"
  TCENOREC := 22

/-! # Theorems -/

/-! ## Lemmas on C strings and associations -/

/-- A buffer without a zero byte is read whole as a C string. -/
theorem cstr_of_no_zero {buf : Bytes} (h : (0 : Fin 256) ∉ buf) : cstr buf = buf := by
  unfold cstr
  rw [List.takeWhile_eq_self_iff]
  intro b hb
  have : b ≠ 0 := fun hb0 => h (hb0 ▸ hb)
  simpa using this

/-- A C string holds no zero byte. -/
theorem zero_not_mem_cstr (buf : Bytes) : (0 : Fin 256) ∉ cstr buf := by
  unfold cstr
  intro h
  have := List.mem_takeWhile_imp h
  simp at this

/-- Putting a key the association does not hold appends a record. -/
theorem tcmapput_fresh (map : TCMAP) (k v : Bytes) (h : k ∉ map.map Prod.fst) :
    tcmapput map k v = map ++ [(k, v)] := by
  induction map with
  | nil => rfl
  | cons e rest ih =>
    obtain ⟨k0, v0⟩ := e
    simp only [List.map_cons, List.mem_cons, not_or] at h
    have hne : k0 ≠ k := fun hk => h.1 hk.symm
    simp [tcmapput, hne, ih h.2]

/-- In an association with distinct keys, every record is found under its key. -/
theorem tcmapget_of_mem (map : TCMAP) (k v : Bytes) (hu : (map.map Prod.fst).Nodup)
    (hm : (k, v) ∈ map) : tcmapget map k = some v := by
  induction map with
  | nil => simp at hm
  | cons e rest ih =>
    obtain ⟨k0, v0⟩ := e
    simp only [List.map_cons, List.nodup_cons] at hu
    rcases List.mem_cons.1 hm with h | h
    · cases h
      simp [tcmapget]
    · have hne : k0 ≠ k := by
        intro hk
        subst hk
        exact hu.1 (List.mem_map_of_mem Prod.fst h)
      simp [tcmapget, hne, ih hu.2 h]

/-- Setting a string key the dict does not hold appends an entry. -/
theorem setItemString_fresh (pre : List (Bytes × Bytes)) (k : Bytes) (value : PyObject)
    (h : k ∉ pre.map Prod.fst) :
    PyDict_SetItemString (pre.map pyEntry) k value = pre.map pyEntry ++ [(.str k, value)] := by
  induction pre with
  | nil => rfl
  | cons e rest ih =>
    obtain ⟨k0, v0⟩ := e
    simp only [List.map_cons, List.mem_cons, not_or] at h
    have hne : k0 ≠ k := fun hk => h.1 hk.symm
    simp [PyDict_SetItemString, pyEntry, PyString_AsString, hne]
    simpa [pyEntry] using ih h.2

/-- The encoding loop on zero-free records with fresh, distinct keys appends them. -/
theorem pydict2tcmap_loop_records (recs : List (Bytes × Bytes)) :
    ∀ map : TCMAP,
      (∀ kv ∈ recs, (0 : Fin 256) ∉ kv.1 ∧ (0 : Fin 256) ∉ kv.2) →
      ((map ++ recs).map Prod.fst).Nodup →
      pydict2tcmap_loop (recs.map pyEntry) map = .ok (map ++ recs) := by
  induction recs with
  | nil => intro map _ _; simp [pydict2tcmap_loop]
  | cons e rest ih =>
    intro map hz hu
    obtain ⟨k, v⟩ := e
    have hkv := hz (k, v) (List.mem_cons_self _ _)
    have hfresh : k ∉ map.map Prod.fst := by
      intro hk
      rw [List.map_append, List.nodup_append] at hu
      exact hu.2.2 hk (by simp)
    have hu1 : (((map ++ [(k, v)]) ++ rest).map Prod.fst).Nodup := by
      simpa using hu
    have := ih (map ++ [(k, v)]) (fun kv h => hz kv (List.mem_cons_of_mem _ h)) hu1
    simp [pydict2tcmap_loop, pyEntry, PyString_Check, PyString_AsString, tcmapput2,
      cstr_of_no_zero hkv.1, cstr_of_no_zero hkv.2, tcmapput_fresh map k v hfresh]
    simpa [pyEntry] using this

/-- The decoding loop on a zero-free association with distinct keys rebuilds it entry
by entry. -/
theorem tcmap2pydict_loop_records (map : TCMAP)
    (hz : ∀ kv ∈ map, (0 : Fin 256) ∉ kv.1 ∧ (0 : Fin 256) ∉ kv.2)
    (hu : (map.map Prod.fst).Nodup) :
    ∀ iter pre : List (Bytes × Bytes), map = pre ++ iter →
      tcmap2pydict_loop map iter (pre.map pyEntry) = .ok (.dict (map.map pyEntry)) := by
  intro iter
  induction iter with
  | nil => intro pre h; simp [tcmap2pydict_loop, h]
  | cons e rest ih =>
    intro pre h
    obtain ⟨k, v⟩ := e
    have hmem : (k, v) ∈ map := by rw [h]; simp
    have hkv := hz (k, v) hmem
    have hfresh : k ∉ pre.map Prod.fst := by
      intro hk
      rw [h, List.map_append, List.nodup_append] at hu
      exact hu.2.2 hk (by simp)
    have hget : tcmapget map k = some v := tcmapget_of_mem map k v hu hmem
    have := ih (pre ++ [(k, v)]) (by simp [h])
    simp only [tcmap2pydict_loop, tcmapget2, cstr_of_no_zero hkv.1, hget,
      PyString_FromString, cstr_of_no_zero hkv.2, setItemString_fresh pre k _ hfresh]
    simpa [pyEntry] using this

/-- Entries that are pairs of zero-free strings come from byte-string records. -/
theorem records_of_entries (entries : List (PyObject × PyObject))
    (hstr : ∀ e ∈ entries, ∃ k v : Bytes,
      e = (.str k, .str v) ∧ (0 : Fin 256) ∉ k ∧ (0 : Fin 256) ∉ v) :
    ∃ recs : List (Bytes × Bytes), entries = recs.map pyEntry ∧
      ∀ kv ∈ recs, (0 : Fin 256) ∉ kv.1 ∧ (0 : Fin 256) ∉ kv.2 := by
  induction entries with
  | nil => exact ⟨[], rfl, by simp⟩
  | cons e rest ih =>
    obtain ⟨recs, hr, hz⟩ := ih (fun e h => hstr e (List.mem_cons_of_mem _ h))
    obtain ⟨k, v, he, hk, hv⟩ := hstr e (List.mem_cons_self _ _)
    refine ⟨(k, v) :: recs, by simp [he, hr, pyEntry], ?_⟩
    intro kv h
    rcases List.mem_cons.1 h with h | h
    · subst h; exact ⟨hk, hv⟩
    · exact hz kv h

/-! ## The record marshaler -/

/-- Setting a zero-free string key to a zero-free string keeps a dict of zero-free
string entries such. -/
theorem setItemString_zero_free (dict : List (PyObject × PyObject)) (k v : Bytes)
    (hk : (0 : Fin 256) ∉ k) (hv : (0 : Fin 256) ∉ v)
    (hd : ∀ e ∈ dict, ∃ a b : Bytes,
      e = (.str a, .str b) ∧ (0 : Fin 256) ∉ a ∧ (0 : Fin 256) ∉ b) :
    ∀ e ∈ PyDict_SetItemString dict k (.str v), ∃ a b : Bytes,
      e = (.str a, .str b) ∧ (0 : Fin 256) ∉ a ∧ (0 : Fin 256) ∉ b := by
  induction dict with
  | nil =>
    intro e he
    simp only [PyDict_SetItemString, List.mem_singleton] at he
    exact ⟨k, v, he, hk, hv⟩
  | cons e0 rest ih =>
    obtain ⟨k0, v0⟩ := e0
    obtain ⟨a, b, hab, ha, _⟩ := hd (k0, v0) (List.mem_cons_self _ _)
    have hrest := fun e h => hd e (List.mem_cons_of_mem _ h)
    intro e he
    simp only [PyDict_SetItemString] at he
    split at he
    · rcases List.mem_cons.1 he with h | h
      · cases hab
        exact ⟨a, v, h, ha, hv⟩
      · exact hrest e h
    · rcases List.mem_cons.1 he with h | h
      · exact h ▸ hd (k0, v0) (List.mem_cons_self _ _)
      · exact ih hrest e h

/-- Whatever the association, the dict `tcmap2pydict` returns holds only strings without
a zero byte: a record with a zero byte in a key or in a value cannot come back from a
round trip. -/
theorem tcmap2pydict_zero_free (map : TCMAP) (iter : List (Bytes × Bytes)) :
    ∀ dict result : List (PyObject × PyObject),
      (∀ e ∈ dict, ∃ a b : Bytes,
        e = (.str a, .str b) ∧ (0 : Fin 256) ∉ a ∧ (0 : Fin 256) ∉ b) →
      tcmap2pydict_loop map iter dict = .ok (.dict result) →
      ∀ e ∈ result, ∃ a b : Bytes,
        e = (.str a, .str b) ∧ (0 : Fin 256) ∉ a ∧ (0 : Fin 256) ∉ b := by
  induction iter with
  | nil =>
    intro dict result hd h
    simp only [tcmap2pydict_loop, CRet.ok.injEq, PyObject.dict.injEq] at h
    exact h ▸ hd
  | cons r rest ih =>
    intro dict result hd h
    obtain ⟨kbuf, vbuf⟩ := r
    simp only [tcmap2pydict_loop] at h
    cases hget : tcmapget2 map kbuf with
    | none => simp [hget] at h
    | some vstr =>
      simp only [hget, PyString_FromString] at h
      exact ih _ result
        (setItemString_zero_free dict _ _ (zero_not_mem_cstr kbuf) (zero_not_mem_cstr vstr) hd)
        h

/-- C1, as amended: for every dict whose keys are distinct strings and whose values are
strings, none of them containing a zero byte (the empty string included),
`pydict2tcmap` succeeds and `tcmap2pydict` of the association it built returns a dict
with the same entries: the same keys, each bound to the same string. -/
theorem roundtrip_of_cstrings (entries : List (PyObject × PyObject))
    (hstr : ∀ e ∈ entries, ∃ k v : Bytes,
      e = (.str k, .str v) ∧ (0 : Fin 256) ∉ k ∧ (0 : Fin 256) ∉ v)
    (huniq : (entries.map Prod.fst).Nodup) :
    ∃ map : TCMAP, pydict2tcmap (.dict entries) = .ok map ∧
      tcmap2pydict map = .ok (.dict entries) := by
  obtain ⟨recs, hr, hz⟩ := records_of_entries entries hstr
  subst hr
  have hu : (recs.map Prod.fst).Nodup := by
    have h1 : (recs.map pyEntry).map Prod.fst = (recs.map Prod.fst).map PyObject.str := by
      simp [pyEntry, Function.comp_def]
    rw [h1] at huniq
    exact List.Nodup.of_map _ huniq
  refine ⟨recs, ?_, ?_⟩
  · have := pydict2tcmap_loop_records recs [] hz (by simpa using hu)
    simpa [pydict2tcmap, tcmapnew] using this
  · have := tcmap2pydict_loop_records recs hz hu recs [] (by simp)
    simpa [tcmap2pydict] using this


/-- C1, the claim as stated fails on a zero byte.  The record `{"k": "a\0b"}` is
encoded as the association `k -> a` and decoded as `{"k": "a"}`: the value is cut at
its zero byte.  The record `{"k\0\x01": "a"}` is encoded under the key `k`, so the
decoded dict has no entry for the original key. -/
theorem roundtrip_zero_byte_counterexample :
    pydict2tcmap (.dict [(.str [107], .str [97, 0, 98])]) = .ok [([107], [97])] ∧
    tcmap2pydict [([107], [97])] = .ok (.dict [(.str [107], .str [97])]) ∧
    PyDict_GetItemString [(.str [107], .str [97])] [107] ≠
      PyDict_GetItemString [(.str [107], .str [97, 0, 98])] [107] ∧
    pydict2tcmap (.dict [(.str [107, 0, 1], .str [97])]) = .ok [([107], [97])] ∧
    PyDict_GetItemString [(.str [107], .str [97])] [107, 0, 1] ≠
      PyDict_GetItemString [(.str [107, 0, 1], .str [97])] [107, 0, 1] := by
  refine ⟨rfl, rfl, ?_, rfl, ?_⟩ <;> simp [PyDict_GetItemString, PyString_AsString]

/-- C1, an instance of the amended round trip: the record `{"n": "a", "": ""}`. -/
theorem roundtrip_of_cstrings_witness :
    ∃ map : TCMAP,
      pydict2tcmap (.dict [(.str [110], .str [97]), (.str [], .str [])]) = .ok map ∧
      tcmap2pydict map = .ok (.dict [(.str [110], .str [97]), (.str [], .str [])]) :=
  roundtrip_of_cstrings [(.str [110], .str [97]), (.str [], .str [])]
    (by
      intro e he
      simp only [List.mem_cons, List.mem_singleton, List.not_mem_nil, or_false] at he
      rcases he with h | h
      · exact ⟨[110], [97], h, by decide, by decide⟩
      · exact ⟨[], [], h, by decide, by decide⟩)
    (by simp)

/-- C2, the code at the failing input `{0: "a", 1: 2}`, enumerated in that order.  The
first entry has a string value, so it passes the check on values; its key is not a
string, `PyString_AsString(key)` is `NULL`, and `tcmapput2` takes `strlen(NULL)`:
`pydict2tcmap` and the three table puts end in undefined behaviour, not in a
`TypeError`, before the non-string value `2` is reached. -/
theorem pydict2tcmap_nonstring_key_first (st : Store) (hist : List StoreCall)
    (self : Tyrant) (kbuf : Bytes) :
    pydict2tcmap (.dict [(.int 0, .str [97]), (.int 1, .int 2)]) = .crash ∧
    Tyrant_tblput st hist self
      [.str kbuf, .dict [(.int 0, .str [97]), (.int 1, .int 2)]] = .crashed [] ∧
    Tyrant_tblputkeep st hist self
      [.str kbuf, .dict [(.int 0, .str [97]), (.int 1, .int 2)]] = .crashed [] ∧
    Tyrant_tblputcat st hist self
      [.str kbuf, .dict [(.int 0, .str [97]), (.int 1, .int 2)]] = .crashed [] :=
  ⟨rfl, rfl, rfl, rfl⟩

/-- The encoding loop on entries whose keys are all strings: a non-string value, at
any position, ends it with `TypeError`. -/
theorem pydict2tcmap_loop_nonstring_value (entries : List (PyObject × PyObject)) :
    ∀ map : TCMAP,
      (∀ e ∈ entries, PyString_Check e.1 = true) →
      (∃ e ∈ entries, PyString_Check e.2 = false) →
      pydict2tcmap_loop entries map = .null ⟨.TypeError, "All values must be strings."⟩ := by
  induction entries with
  | nil => intro _ _ h; simp at h
  | cons e rest ih =>
    intro map hk hv
    obtain ⟨key, value⟩ := e
    cases hval : PyString_Check value with
    | false => simp [pydict2tcmap_loop, hval]
    | true =>
      have hkey : PyString_Check key = true := hk (key, value) (List.mem_cons_self _ _)
      have hrest : ∃ e ∈ rest, PyString_Check e.2 = false := by
        obtain ⟨e, he, h⟩ := hv
        rcases List.mem_cons.1 he with h1 | h1
        · subst h1; simp [hval] at h
        · exact ⟨e, h1, h⟩
      cases key <;> simp [PyString_Check] at hkey
      cases value <;> simp [PyString_Check] at hval
      simp [pydict2tcmap_loop, PyString_Check, PyString_AsString, tcmapput2]
      exact ih _ (fun e h => hk e (List.mem_cons_of_mem _ h)) hrest

/-- On a dict whose keys are all strings and that has a non-string value,
`pydict2tcmap` raises `TypeError` and each table put returns `NULL` with that error
without a call to the store. -/
theorem tblput_rejects_nonstring_value (st : Store) (hist : List StoreCall) (self : Tyrant)
    (kbuf : Bytes) (entries : List (PyObject × PyObject))
    (hk : ∀ e ∈ entries, PyString_Check e.1 = true)
    (hv : ∃ e ∈ entries, PyString_Check e.2 = false) :
    pydict2tcmap (.dict entries) = .null ⟨.TypeError, "All values must be strings."⟩ ∧
    Tyrant_tblput st hist self [.str kbuf, .dict entries] =
      .returned none (some ⟨.TypeError, "All values must be strings."⟩) [] ∧
    Tyrant_tblputkeep st hist self [.str kbuf, .dict entries] =
      .returned none (some ⟨.TypeError, "All values must be strings."⟩) [] ∧
    Tyrant_tblputcat st hist self [.str kbuf, .dict entries] =
      .returned none (some ⟨.TypeError, "All values must be strings."⟩) [] := by
  have h := pydict2tcmap_loop_nonstring_value entries tcmapnew hk hv
  have h1 : pydict2tcmap (.dict entries) =
      .null ⟨.TypeError, "All values must be strings."⟩ := by simpa [pydict2tcmap] using h
  simp [Tyrant_tblput, Tyrant_tblputkeep, Tyrant_tblputcat, tblputWith, parsePutArgs, h1]

/-! ## The error translator -/

/-- C3: `raise_tyrant_error` sets `KeyError` exactly when the connection's error code
is `TCENOREC`, the generic `tokyotyrant.error` exactly when it is any other code, and in
both cases the message is `tcrdberrmsg` of that code. -/
theorem raise_tyrant_error_split (st : Store) (hist : List StoreCall) (db : TCRDB) :
    ((raise_tyrant_error st hist db).type = .KeyError ↔
        st.tcrdbecode hist db = st.TCENOREC) ∧
    ((raise_tyrant_error st hist db).type = .TyrantError ↔
        st.tcrdbecode hist db ≠ st.TCENOREC) ∧
    (raise_tyrant_error st hist db).msg = st.tcrdberrmsg (st.tcrdbecode hist db) := by
  unfold raise_tyrant_error
  by_cases h : st.tcrdbecode hist db = st.TCENOREC <;> simp [h]


/-! ## `Tyrant.get` -/

/-- C4, the claim as stated fails.  With a store that has no record for the key (the
lookup answers `NULL` and the error code is `TCENOREC`), `get("k")` returns `None`
with no exception set: it does not raise `KeyError`. -/
theorem get_missing_no_default_counterexample :
    (sampleStore none none 22).tcrdbget [] 1 [107] = none ∧
    (sampleStore none none 22).tcrdbecode [.tcrdbget 1 [107]] 1 =
      (sampleStore none none 22).TCENOREC ∧
    Tyrant_get (sampleStore none none 22) [] ⟨1⟩ [.str [107]] [] =
      .returned (some .none) none [.tcrdbget 1 [107]] ∧
    ¬ (Tyrant_get (sampleStore none none 22) [] ⟨1⟩ [.str [107]] []).raises .KeyError := by
  refine ⟨rfl, rfl, rfl, ?_⟩
  rintro ⟨msg, calls, h⟩
  simp [Tyrant_get, parseGetArgs, sampleStore] at h

/-- C4, as amended: for every key for which the store lookup yields no value,
`get(key)` without a default returns `None` and sets no exception, after the one
lookup call. -/
theorem get_missing_returns_None (st : Store) (hist : List StoreCall) (self : Tyrant)
    (key : Bytes) (hmiss : st.tcrdbget hist self.db key = none) :
    Tyrant_get st hist self [.str key] [] =
      .returned (some .none) none [.tcrdbget self.db key] := by
  simp [Tyrant_get, parseGetArgs, hmiss]

/-- C4, an instance of the amended claim: `get("k1")` on a store without that key. -/
theorem get_missing_returns_None_witness :
    Tyrant_get (sampleStore none none 22) [] ⟨1⟩ [.str [107, 49]] [] =
      .returned (some .none) none [.tcrdbget 1 [107, 49]] :=
  get_missing_returns_None (sampleStore none none 22) [] ⟨1⟩ [107, 49] rfl

/-- C5: when the store lookup yields no value, `get(key, default)` (default given by
position or by keyword) returns the default object itself and `get(key)` returns
`None`; when the lookup yields a value, `get` returns a string of exactly those bytes
and the default is ignored.  No exception is set, and the lookup is the only call. -/
theorem get_default_or_value (st : Store) (hist : List StoreCall) (self : Tyrant) (key : Bytes)
    (default_value : PyObject) :
    (st.tcrdbget hist self.db key = none →
      Tyrant_get st hist self [.str key, default_value] [] =
        .returned (some default_value) none [.tcrdbget self.db key] ∧
      Tyrant_get st hist self [.str key] [("default", default_value)] =
        .returned (some default_value) none [.tcrdbget self.db key] ∧
      Tyrant_get st hist self [.str key] [] =
        .returned (some .none) none [.tcrdbget self.db key]) ∧
    (∀ vbuf : Bytes, st.tcrdbget hist self.db key = some vbuf →
      Tyrant_get st hist self [.str key, default_value] [] =
        .returned (some (.str vbuf)) none [.tcrdbget self.db key] ∧
      Tyrant_get st hist self [.str key] [("default", default_value)] =
        .returned (some (.str vbuf)) none [.tcrdbget self.db key] ∧
      Tyrant_get st hist self [.str key] [] =
        .returned (some (.str vbuf)) none [.tcrdbget self.db key]) := by
  constructor
  · intro h
    simp [Tyrant_get, parseGetArgs, h]
  · intro vbuf h
    simp [Tyrant_get, parseGetArgs, h, PyString_FromStringAndSize]

/-- C5, two instances: `get("k", "x")` is `"x"` on a store without the key, and is the
stored value `"v\0w"`, zero byte included, on a store that has it. -/
theorem get_default_or_value_witness :
    Tyrant_get (sampleStore none none 22) [] ⟨1⟩ [.str [107], .str [120]] [] =
      .returned (some (.str [120])) none [.tcrdbget 1 [107]] ∧
    Tyrant_get (sampleStore (some [118, 0, 119]) none 0) [] ⟨1⟩ [.str [107], .str [120]] [] =
      .returned (some (.str [118, 0, 119])) none [.tcrdbget 1 [107]] :=
  ⟨((get_default_or_value (sampleStore none none 22) [] ⟨1⟩ [107] (.str [120])).1 rfl).1,
   ((get_default_or_value (sampleStore (some [118, 0, 119]) none 0) [] ⟨1⟩ [107] (.str [120])).2
      [118, 0, 119] rfl).1⟩

/-- C6, the code at the failing input.  The store lookup fails with error code 5, which
is not `TCENOREC`; `get("k")` returns `None` and `get("k", "x")` returns `"x"`, with no
exception set: the generic store fault is not raised. -/
theorem get_swallows_store_failure :
    (sampleStore none none 5).tcrdbget [] 1 [107] = none ∧
    (sampleStore none none 5).tcrdbecode [.tcrdbget 1 [107]] 1 ≠
      (sampleStore none none 5).TCENOREC ∧
    Tyrant_get (sampleStore none none 5) [] ⟨1⟩ [.str [107]] [] =
      .returned (some .none) none [.tcrdbget 1 [107]] ∧
    Tyrant_get (sampleStore none none 5) [] ⟨1⟩ [.str [107], .str [120]] [] =
      .returned (some (.str [120])) none [.tcrdbget 1 [107]] ∧
    ¬ (Tyrant_get (sampleStore none none 5) [] ⟨1⟩ [.str [107]] []).raises .TyrantError ∧
    ¬ (Tyrant_get (sampleStore none none 5) [] ⟨1⟩ [.str [107], .str [120]] []).raises
        .TyrantError := by
  refine ⟨rfl, by decide, rfl, rfl, ?_, ?_⟩ <;>
  · rintro ⟨msg, calls, h⟩
    simp [Tyrant_get, parseGetArgs, sampleStore] at h

/-! ## `Tyrant.metasearch` -/

/-- C7: `metasearch([], type)` returns an empty list for every operator `type` (a C
`int`), sets no exception and issues no call to the store. -/
theorem metasearch_empty (st : Store) (hist : List StoreCall) (self : Tyrant)
    (type : Int) (hlo : -2147483648 ≤ type) (hhi : type ≤ 2147483647) :
    Tyrant_metasearch st hist self [.list [], .int type] =
      .returned (some (.list [])) none [] := by
  simp [Tyrant_metasearch, parseMetasearchArgs, parseInt, hlo, hhi]

/-- C7, an instance: `metasearch([], 2)`. -/
theorem metasearch_empty_witness :
    Tyrant_metasearch (sampleStore none (some [[107]]) 0) [] ⟨1⟩ [.list [], .int 2] =
      .returned (some (.list [])) none [] :=
  metasearch_empty (sampleStore none (some [[107]]) 0) [] ⟨1⟩ 2 (by decide) (by decide)

/-- The first loop on a list of query objects collects their handles in order. -/
theorem metasearch_queries_of_queries (tqs : List TyrantQuery) :
    metasearch_queries (tqs.map PyObject.query) = some (tqs.map TyrantQuery.q) := by
  induction tqs with
  | nil => rfl
  | cons t rest ih => simp [metasearch_queries, ih]

/-- The second loop turns each key into a string of exactly its bytes. -/
theorem metasearch_results_eq_map (results : List Bytes) :
    metasearch_results results = results.map PyObject.str := by
  induction results with
  | nil => rfl
  | cons v rest ih => simp [metasearch_results, PyString_FromStringAndSize, ih]

/-- The first loop stops at an item that is not a query object. -/
theorem metasearch_queries_of_nonquery (items : List PyObject)
    (h : ∃ x ∈ items, ∀ t : TyrantQuery, x ≠ .query t) : metasearch_queries items = none := by
  induction items with
  | nil => simp at h
  | cons x rest ih =>
    cases x with
    | query t =>
      have hrest : ∃ y ∈ rest, ∀ t : TyrantQuery, y ≠ .query t := by
        obtain ⟨y, hy, hne⟩ := h
        rcases List.mem_cons.1 hy with h1 | h1
        · exact absurd h1 (hne t)
        · exact ⟨y, h1, hne⟩
      simp [metasearch_queries, ih hrest]
    | _ => simp [metasearch_queries]

/-- The outcome of `metasearch` on a non-empty list of query objects, in terms of the
store's answer to the one combine call. -/
theorem metasearch_on_queries (st : Store) (hist : List StoreCall) (self : Tyrant)
    (tqs : List TyrantQuery) (type : Int) (hne : tqs ≠ [])
    (hlo : -2147483648 ≤ type) (hhi : type ≤ 2147483647) :
    Tyrant_metasearch st hist self [.list (tqs.map PyObject.query), .int type] =
      match st.tcrdbmetasearch hist (tqs.map TyrantQuery.q) tqs.length type with
      | none =>
        .returned none (some ⟨.MemoryError, "Cannot allocate memory for TCLIST object"⟩)
          [.tcrdbmetasearch (tqs.map TyrantQuery.q) tqs.length type]
      | some results =>
        .returned (some (.list (results.map PyObject.str))) none
          [.tcrdbmetasearch (tqs.map TyrantQuery.q) tqs.length type] := by
  simp only [Tyrant_metasearch, parseMetasearchArgs, parseInt, hlo, hhi, and_self, if_true,
    List.length_map, List.length_eq_zero, hne, if_false, metasearch_queries_of_queries,
    metasearch_results_eq_map]


/-- C8, the claim as stated fails.  Called on connection 1 with a query created on
connection 1 and a query created on connection 2, `metasearch` issues the combine call
with both handles and returns the store's keys; no fault is raised. -/
theorem metasearch_mixed_connections_counterexample :
    (⟨1, []⟩ : RDBQRY).rdb ≠ (⟨2, []⟩ : RDBQRY).rdb ∧
    (⟨2, []⟩ : RDBQRY).rdb ≠ (⟨1⟩ : Tyrant).db ∧
    Tyrant_metasearch (sampleStore none (some [[107]]) 0) [] ⟨1⟩
        [.list [.query ⟨⟨1, []⟩⟩, .query ⟨⟨2, []⟩⟩], .int 0] =
      .returned (some (.list [.str [107]])) none
        [.tcrdbmetasearch [⟨1, []⟩, ⟨2, []⟩] 2 0] := by
  refine ⟨by decide, by decide, rfl⟩

/-- C8, as amended: `metasearch` does not look at the connections.  For every
non-empty list of query objects, whatever connections they were created on and
whatever connection it is called on, it issues the combine call once, with the
members' handles, and raises neither `TypeError` nor `ValueError`. -/
theorem metasearch_no_connection_check (st : Store) (hist : List StoreCall)
    (self : Tyrant) (tqs : List TyrantQuery) (type : Int) (hne : tqs ≠ [])
    (hlo : -2147483648 ≤ type) (hhi : type ≤ 2147483647) :
    (Tyrant_metasearch st hist self [.list (tqs.map PyObject.query), .int type]).calls =
      [.tcrdbmetasearch (tqs.map TyrantQuery.q) tqs.length type] ∧
    ¬ (Tyrant_metasearch st hist self
        [.list (tqs.map PyObject.query), .int type]).raises .TypeError ∧
    ¬ (Tyrant_metasearch st hist self
        [.list (tqs.map PyObject.query), .int type]).raises .ValueError := by
  rw [metasearch_on_queries st hist self tqs type hne hlo hhi]
  cases st.tcrdbmetasearch hist (tqs.map TyrantQuery.q) tqs.length type with
  | none =>
    refine ⟨rfl, ?_, ?_⟩ <;>
    · rintro ⟨msg, calls, h⟩
      simp at h
  | some results =>
    refine ⟨rfl, ?_, ?_⟩ <;>
    · rintro ⟨msg, calls, h⟩
      simp at h

/-- C8, an instance of the amended claim: queries of connections 1 and 2, combined on
connection 1. -/
theorem metasearch_no_connection_check_witness :
    (Tyrant_metasearch (sampleStore none (some [[107]]) 0) [] ⟨1⟩
        [.list ([⟨⟨1, []⟩⟩, ⟨⟨2, []⟩⟩].map PyObject.query), .int 0]).calls =
      [.tcrdbmetasearch (([⟨⟨1, []⟩⟩, ⟨⟨2, []⟩⟩] : List TyrantQuery).map TyrantQuery.q)
        ([⟨⟨1, []⟩⟩, ⟨⟨2, []⟩⟩] : List TyrantQuery).length 0] ∧
    ¬ (Tyrant_metasearch (sampleStore none (some [[107]]) 0) [] ⟨1⟩
        [.list ([⟨⟨1, []⟩⟩, ⟨⟨2, []⟩⟩].map PyObject.query), .int 0]).raises .TypeError ∧
    ¬ (Tyrant_metasearch (sampleStore none (some [[107]]) 0) [] ⟨1⟩
        [.list ([⟨⟨1, []⟩⟩, ⟨⟨2, []⟩⟩].map PyObject.query), .int 0]).raises .ValueError :=
  metasearch_no_connection_check (sampleStore none (some [[107]]) 0) [] ⟨1⟩
    [⟨⟨1, []⟩⟩, ⟨⟨2, []⟩⟩] 0 (by simp) (by decide) (by decide)

/-- C9: for every non-empty list of query objects and every operator `type` (a C
`int`), `metasearch` issues exactly one combine call, whose `i`-th handle is the handle
of the `i`-th list element, with the list length as count and `type` unchanged; and
when the store answers with a key list, it returns a list of the same length whose
`i`-th element is a string of exactly the bytes of the `i`-th key. -/
theorem metasearch_combine (st : Store) (hist : List StoreCall) (self : Tyrant)
    (tqs : List TyrantQuery) (type : Int) (hne : tqs ≠ [])
    (hlo : -2147483648 ≤ type) (hhi : type ≤ 2147483647) :
    (Tyrant_metasearch st hist self [.list (tqs.map PyObject.query), .int type]).calls =
      [.tcrdbmetasearch (tqs.map TyrantQuery.q) tqs.length type] ∧
    (∀ i (hi : i < tqs.length),
      (tqs.map TyrantQuery.q)[i]? = some (tqs.get ⟨i, hi⟩).q) ∧
    ∀ results : List Bytes,
      st.tcrdbmetasearch hist (tqs.map TyrantQuery.q) tqs.length type = some results →
      ∃ pyresults : List PyObject,
        Tyrant_metasearch st hist self [.list (tqs.map PyObject.query), .int type] =
          .returned (some (.list pyresults)) none
            [.tcrdbmetasearch (tqs.map TyrantQuery.q) tqs.length type] ∧
        pyresults.length = results.length ∧
        ∀ i (hi : i < results.length),
          pyresults[i]? = some (.str (results.get ⟨i, hi⟩)) := by
  rw [metasearch_on_queries st hist self tqs type hne hlo hhi]
  refine ⟨?_, ?_, ?_⟩
  · cases st.tcrdbmetasearch hist (tqs.map TyrantQuery.q) tqs.length type <;> rfl
  · intro i hi
    simp [List.getElem?_map, List.getElem?_eq_getElem hi]
  · intro results h
    refine ⟨results.map PyObject.str, by simp [h], by simp, ?_⟩
    intro i hi
    simp [List.getElem?_map, List.getElem?_eq_getElem hi]

/-- C9, an instance: two queries under operator 2, the store answering the keys
`"k\01"` and `""`. -/
theorem metasearch_combine_witness :
    (Tyrant_metasearch (sampleStore none (some [[107, 0, 49], []]) 0) [] ⟨1⟩
        [.list ([⟨⟨1, [([97], 0, [98])]⟩⟩, ⟨⟨1, []⟩⟩].map PyObject.query), .int 2]).calls =
      [.tcrdbmetasearch [⟨1, [([97], 0, [98])]⟩, ⟨1, []⟩] 2 2] ∧
    Tyrant_metasearch (sampleStore none (some [[107, 0, 49], []]) 0) [] ⟨1⟩
        [.list [.query ⟨⟨1, [([97], 0, [98])]⟩⟩, .query ⟨⟨1, []⟩⟩], .int 2] =
      .returned (some (.list [.str [107, 0, 49], .str []])) none
        [.tcrdbmetasearch [⟨1, [([97], 0, [98])]⟩, ⟨1, []⟩] 2 2] :=
  ⟨(metasearch_combine (sampleStore none (some [[107, 0, 49], []]) 0) [] ⟨1⟩
      [⟨⟨1, [([97], 0, [98])]⟩⟩, ⟨⟨1, []⟩⟩] 2 (by simp) (by decide) (by decide)).1, rfl⟩

/-- C10: for every list with an element that is not a query object, at any position,
`metasearch` returns `NULL` with `TypeError` set and issues no call to the store. -/
theorem metasearch_rejects_nonquery (st : Store) (hist : List StoreCall) (self : Tyrant)
    (items : List PyObject) (type : Int)
    (hbad : ∃ x ∈ items, ∀ t : TyrantQuery, x ≠ .query t)
    (hlo : -2147483648 ≤ type) (hhi : type ≤ 2147483647) :
    Tyrant_metasearch st hist self [.list items, .int type] =
      .returned none (some ⟨.TypeError, "Expected a list of tyrant query objects."⟩) [] := by
  have hne : items ≠ [] := by
    rintro rfl
    simp at hbad
  simp [Tyrant_metasearch, parseMetasearchArgs, parseInt, hlo, hhi, hne,
    metasearch_queries_of_nonquery items hbad]

/-- C10, an instance: a string after two valid query objects. -/
theorem metasearch_rejects_nonquery_witness :
    Tyrant_metasearch (sampleStore none (some [[107]]) 0) [] ⟨1⟩
        [.list [.query ⟨⟨1, []⟩⟩, .query ⟨⟨1, []⟩⟩, .str [113]], .int 0] =
      .returned none (some ⟨.TypeError, "Expected a list of tyrant query objects."⟩) [] :=
  metasearch_rejects_nonquery (sampleStore none (some [[107]]) 0) [] ⟨1⟩
    [.query ⟨⟨1, []⟩⟩, .query ⟨⟨1, []⟩⟩, .str [113]] 0
    ⟨.str [113], by simp, by intro t h; cases h⟩ (by decide) (by decide)

/-! ## `Tyrant.metasearch` on an argument that is not a list -/

/-- C11, the code at the failing inputs `metasearch((q, q), 0)` and
`metasearch(None, 0)`.  The `PyList_Check` branch returns `NULL` and sets nothing:
the call issues no store call, but no exception of any type is set by the function. -/
theorem metasearch_nonlist_returns_bare_null (st : Store) (hist : List StoreCall) (self : Tyrant) :
    Tyrant_metasearch st hist self [.tuple [.query ⟨⟨1, []⟩⟩, .query ⟨⟨1, []⟩⟩], .int 0] =
      .returned none none [] ∧
    Tyrant_metasearch st hist self [.none, .int 0] = .returned none none [] ∧
    ∀ exc : PyExc,
      ¬ (Tyrant_metasearch st hist self
          [.tuple [.query ⟨⟨1, []⟩⟩, .query ⟨⟨1, []⟩⟩], .int 0]).raises exc ∧
      ¬ (Tyrant_metasearch st hist self [.none, .int 0]).raises exc := by
  refine ⟨rfl, rfl, fun exc => ⟨?_, ?_⟩⟩ <;>
  · rintro ⟨msg, calls, h⟩
    simp [Tyrant_metasearch, parseMetasearchArgs, parseInt] at h

/-! ## The query executor -/

/-- C12: when the store answers the search with a key list, `search()` returns a list
of the same keys in the same order, each a string of exactly the key's bytes, with no
exception set; an empty answer gives an empty list. -/
theorem search_returns_store_keys (st : Store) (hist : List StoreCall) (self : TyrantQuery)
    (results : List Bytes) (h : st.tcrdbqrysearch hist self.q = some results) :
    TyrantQuery_search st hist self =
      .returned (some (.list (results.map PyObject.str))) none [.tcrdbqrysearch self.q] ∧
    (results = [] →
      TyrantQuery_search st hist self =
        .returned (some (.list [])) none [.tcrdbqrysearch self.q]) := by
  have h1 : TyrantQuery_search st hist self =
      .returned (some (.list (results.map PyObject.str))) none [.tcrdbqrysearch self.q] := by
    simp [TyrantQuery_search, h, metasearch_results_eq_map]
  refine ⟨h1, ?_⟩
  intro he
  rw [h1, he]
  rfl

/-- C12, two instances: the keys `"k\01"`, `""`, `"k"` come back unchanged, and an
empty answer gives an empty list. -/
theorem search_returns_store_keys_witness :
    TyrantQuery_search (sampleStore none (some [[107, 0, 49], [], [107]]) 0) [] ⟨⟨1, []⟩⟩ =
      .returned (some (.list (([[107, 0, 49], [], [107]] : List Bytes).map PyObject.str)))
        none [.tcrdbqrysearch ⟨1, []⟩] ∧
    TyrantQuery_search (sampleStore none (some []) 0) [] ⟨⟨1, []⟩⟩ =
      .returned (some (.list [])) none [.tcrdbqrysearch ⟨1, []⟩] :=
  ⟨(search_returns_store_keys (sampleStore none (some [[107, 0, 49], [], [107]]) 0) [] ⟨⟨1, []⟩⟩
      [[107, 0, 49], [], [107]] rfl).1,
   (search_returns_store_keys (sampleStore none (some []) 0) [] ⟨⟨1, []⟩⟩ [] rfl).2 rfl⟩

/-- C13, the claim as stated fails.  When the store reports that the search-and-delete
failed, `searchout()` returns the integer 0 and sets no exception. -/
theorem searchout_failure_counterexample :
    (sampleStore none none 5).tcrdbqrysearchout [] ⟨1, []⟩ = false ∧
    TyrantQuery_searchout (sampleStore none none 5) [] ⟨⟨1, []⟩⟩ =
      .returned (some (.int 0)) none [.tcrdbqrysearchout ⟨1, []⟩] ∧
    ∀ exc : PyExc,
      ¬ (TyrantQuery_searchout (sampleStore none none 5) [] ⟨⟨1, []⟩⟩).raises exc := by
  refine ⟨rfl, rfl, fun exc => ?_⟩
  rintro ⟨msg, calls, h⟩
  simp [TyrantQuery_searchout] at h

/-- C13, as amended: `searchout()` reports the outcome by its return value and never
raises: it returns 1 when the store reports success and 0 when the store reports
failure, with no exception set, after the one store call. -/
theorem searchout_returns_flag (st : Store) (hist : List StoreCall) (self : TyrantQuery) :
    (st.tcrdbqrysearchout hist self.q = true →
      TyrantQuery_searchout st hist self =
        .returned (some (.int 1)) none [.tcrdbqrysearchout self.q]) ∧
    (st.tcrdbqrysearchout hist self.q = false →
      TyrantQuery_searchout st hist self =
        .returned (some (.int 0)) none [.tcrdbqrysearchout self.q]) := by
  constructor <;> intro h <;> simp [TyrantQuery_searchout, Py_BuildValue_bool, h]

/-- C13, two instances of the amended claim: a store that succeeds, a store that
fails. -/
theorem searchout_returns_flag_witness :
    TyrantQuery_searchout { sampleStore none none 0 with tcrdbqrysearchout := fun _ _ => true }
        [] ⟨⟨1, []⟩⟩ =
      .returned (some (.int 1)) none [.tcrdbqrysearchout ⟨1, []⟩] ∧
    TyrantQuery_searchout (sampleStore none none 5) [] ⟨⟨1, []⟩⟩ =
      .returned (some (.int 0)) none [.tcrdbqrysearchout ⟨1, []⟩] :=
  ⟨(searchout_returns_flag { sampleStore none none 0 with tcrdbqrysearchout := fun _ _ => true }
      [] ⟨⟨1, []⟩⟩).1 rfl,
   (searchout_returns_flag (sampleStore none none 5) [] ⟨⟨1, []⟩⟩).2 rfl⟩

/-! ## `TyrantQuery.searchget` -/

/-- Decoding never ends in undefined behaviour. -/
theorem tcmap2pydict_loop_no_crash (map : TCMAP) (iter : List (Bytes × Bytes)) :
    ∀ dict : List (PyObject × PyObject), tcmap2pydict_loop map iter dict ≠ .crash := by
  induction iter with
  | nil => intro dict h; simp [tcmap2pydict_loop] at h
  | cons r rest ih =>
    intro dict
    obtain ⟨kbuf, vbuf⟩ := r
    cases hget : tcmapget2 map kbuf with
    | none => simp [tcmap2pydict_loop, hget]
    | some vstr =>
      simp only [tcmap2pydict_loop, hget]
      exact ih _

/-- The row loop when every row can be extracted and decoded: it appends the decoded
records in index order. -/
theorem searchget_loop_all (st : Store) (results : List Bytes) (indices : List Nat) :
    ∀ pylist : List PyObject,
      (∀ i ∈ indices, ∃ map record,
        st.tcrdbqryrescols results i = some map ∧ tcmap2pydict map = .ok record) →
      ∃ records : List PyObject,
        searchget_loop st results indices pylist = .ok (pylist ++ records) ∧
        List.Forall₂
          (fun i record => ∃ map,
            st.tcrdbqryrescols results i = some map ∧ tcmap2pydict map = .ok record)
          indices records := by
  induction indices with
  | nil =>
    intro pylist _
    exact ⟨[], by simp [searchget_loop], List.Forall₂.nil⟩
  | cons i rest ih =>
    intro pylist h
    obtain ⟨map, record, hmap, hrec⟩ := h i (List.mem_cons_self _ _)
    obtain ⟨records, hloop, hall⟩ :=
      ih (pylist ++ [record]) (fun j hj => h j (List.mem_cons_of_mem _ hj))
    refine ⟨record :: records, ?_, List.Forall₂.cons ⟨map, hmap, hrec⟩ hall⟩
    simp [searchget_loop, hmap, hrec, hloop]

/-- The row loop when some row cannot be extracted or decoded: it ends with a fault. -/
theorem searchget_loop_any (st : Store) (results : List Bytes) (indices : List Nat) :
    ∀ pylist : List PyObject,
      (∃ i ∈ indices, st.tcrdbqryrescols results i = none ∨
        ∃ map e, st.tcrdbqryrescols results i = some map ∧ tcmap2pydict map = .null e) →
      ∃ e : PyErr, searchget_loop st results indices pylist = .null e := by
  induction indices with
  | nil => intro _ h; simp at h
  | cons i rest ih =>
    intro pylist h
    cases hmap : st.tcrdbqryrescols results i with
    | none =>
      exact ⟨⟨.MemoryError, "Cannot allocate memory for TCMAP object"⟩,
        by simp [searchget_loop, hmap]⟩
    | some map =>
      cases hdec : tcmap2pydict map with
      | null e => exact ⟨e, by simp [searchget_loop, hmap, hdec]⟩
      | crash => exact absurd hdec (tcmap2pydict_loop_no_crash map map [])
      | ok record =>
        have hrest : ∃ j ∈ rest, st.tcrdbqryrescols results j = none ∨
            ∃ map e, st.tcrdbqryrescols results j = some map ∧
              tcmap2pydict map = .null e := by
          obtain ⟨j, hj, hfail⟩ := h
          rcases List.mem_cons.1 hj with h1 | h1
          · subst h1
            rcases hfail with h2 | ⟨map1, e, h2, h3⟩
            · rw [hmap] at h2; cases h2
            · rw [hmap] at h2
              cases h2
              rw [hdec] at h3
              cases h3
          · exact ⟨j, h1, hfail⟩
        obtain ⟨e, he⟩ := ih (pylist ++ [record]) hrest
        exact ⟨e, by simp [searchget_loop, hmap, hdec, he]⟩

/-- C14: when the store answers with a row list, `searchget()` is all or nothing.  If
every row's columns can be extracted and decoded, it returns a list with one decoded
record per row, in row order; if extraction or decoding fails for some row, at any
index, it returns `NULL` with an exception set, and no list. -/
theorem searchget_all_or_nothing (st : Store) (hist : List StoreCall) (self : TyrantQuery)
    (results : List Bytes) (h : st.tcrdbqrysearchget hist self.q = some results) :
    ((∀ i, i < results.length → ∃ map record,
        st.tcrdbqryrescols results i = some map ∧ tcmap2pydict map = .ok record) →
      ∃ pylist : List PyObject,
        TyrantQuery_searchget st hist self =
          .returned (some (.list pylist)) none [.tcrdbqrysearchget self.q] ∧
        pylist.length = results.length ∧
        ∀ i, i < results.length → ∃ map record,
          st.tcrdbqryrescols results i = some map ∧ tcmap2pydict map = .ok record ∧
          pylist[i]? = some record) ∧
    ((∃ i, i < results.length ∧ (st.tcrdbqryrescols results i = none ∨
        ∃ map e, st.tcrdbqryrescols results i = some map ∧ tcmap2pydict map = .null e)) →
      ∃ e : PyErr,
        TyrantQuery_searchget st hist self =
          .returned none (some e) [.tcrdbqrysearchget self.q]) := by
  constructor
  · intro hall
    obtain ⟨records, hloop, hrel⟩ :=
      searchget_loop_all st results (List.range results.length) []
        (fun i hi => hall i (List.mem_range.1 hi))
    have hlen : records.length = results.length := by
      rw [← hrel.length_eq, List.length_range]
    refine ⟨records, by simp [TyrantQuery_searchget, h, hloop], hlen, ?_⟩
    intro i hi
    have hi1 : i < (List.range results.length).length := by simpa using hi
    have hi2 : i < records.length := by omega
    obtain ⟨map, hmap, hrec⟩ := hrel.get hi1 hi2
    simp only [List.get_eq_getElem, List.getElem_range] at hmap hrec
    exact ⟨map, _, hmap, hrec, by simp [List.getElem?_eq_getElem hi2]⟩
  · rintro ⟨i, hi, hfail⟩
    obtain ⟨e, he⟩ :=
      searchget_loop_any st results (List.range results.length) []
        ⟨i, List.mem_range.2 hi, hfail⟩
    exact ⟨e, by simp [TyrantQuery_searchget, h, he]⟩

/-- C14, two instances: two rows that decode, and a result whose second row has no
columns to extract. -/
theorem searchget_all_or_nothing_witness :
    (∃ pylist : List PyObject,
      TyrantQuery_searchget (sampleStore none (some [[110, 97], [107, 98, 0, 99]]) 0) []
          ⟨⟨1, []⟩⟩ =
        .returned (some (.list pylist)) none [.tcrdbqrysearchget ⟨1, []⟩] ∧
      pylist.length = ([[110, 97], [107, 98, 0, 99]] : List Bytes).length ∧
      ∀ i, i < ([[110, 97], [107, 98, 0, 99]] : List Bytes).length → ∃ map record,
        (sampleStore none (some [[110, 97], [107, 98, 0, 99]]) 0).tcrdbqryrescols
          [[110, 97], [107, 98, 0, 99]] i = some map ∧
        tcmap2pydict map = .ok record ∧ pylist[i]? = some record) ∧
    ∃ e : PyErr,
      TyrantQuery_searchget (sampleStore none (some [[110, 97], []]) 0) [] ⟨⟨1, []⟩⟩ =
        .returned none (some e) [.tcrdbqrysearchget ⟨1, []⟩] :=
  ⟨(searchget_all_or_nothing (sampleStore none (some [[110, 97], [107, 98, 0, 99]]) 0) [] ⟨⟨1, []⟩⟩
      [[110, 97], [107, 98, 0, 99]] rfl).1 (by
        intro i hi
        have hi2 : i < 2 := hi
        interval_cases i
        · exact ⟨[([110], [97])], .dict [(.str [110], .str [97])], rfl, rfl⟩
        · exact ⟨[([107], [98, 0, 99])], .dict [(.str [107], .str [98])], rfl, rfl⟩),
   (searchget_all_or_nothing (sampleStore none (some [[110, 97], []]) 0) [] ⟨⟨1, []⟩⟩
      [[110, 97], []] rfl).2 ⟨1, by decide, Or.inl rfl⟩⟩

/-! ## Decoding an association -/

/-- A key reads back the value just set. -/
theorem getItemString_setItemString_same (dict : List (PyObject × PyObject)) (k : Bytes)
    (value : PyObject) :
    PyDict_GetItemString (PyDict_SetItemString dict k value) k = some value := by
  induction dict with
  | nil => simp [PyDict_SetItemString, PyDict_GetItemString, PyString_AsString]
  | cons e rest ih =>
    obtain ⟨k0, v0⟩ := e
    by_cases h : PyString_AsString k0 = some k
    · simp [PyDict_SetItemString, PyDict_GetItemString, h]
    · simp [PyDict_SetItemString, PyDict_GetItemString, h, ih]

/-- Setting a key leaves the value of every other string key as it was. -/
theorem getItemString_setItemString_other (dict : List (PyObject × PyObject))
    (k k1 : Bytes) (value : PyObject) (hne : k ≠ k1) :
    PyDict_GetItemString (PyDict_SetItemString dict k value) k1 =
      PyDict_GetItemString dict k1 := by
  induction dict with
  | nil =>
    have : ¬ PyString_AsString (.str k) = some k1 := by simpa [PyString_AsString] using hne
    simp [PyDict_SetItemString, PyDict_GetItemString, this]
  | cons e rest ih =>
    obtain ⟨k0, v0⟩ := e
    by_cases h : PyString_AsString k0 = some k
    · have h1 : ¬ PyString_AsString k0 = some k1 := by
        rw [h]; simpa using hne
      simp only [PyDict_SetItemString, if_pos h, PyDict_GetItemString, if_neg h1]
    · simp only [PyDict_SetItemString, if_neg h, PyDict_GetItemString, ih]

/-- Setting a key adds no key but that one. -/
theorem setItemString_keys (dict : List (PyObject × PyObject)) (k : Bytes)
    (value : PyObject) :
    ∀ e ∈ PyDict_SetItemString dict k value,
      e.1 = .str k ∨ ∃ e0 ∈ dict, e0.1 = e.1 := by
  induction dict with
  | nil =>
    intro e he
    simp only [PyDict_SetItemString, List.mem_singleton] at he
    exact Or.inl (by rw [he])
  | cons e0 rest ih =>
    obtain ⟨k0, v0⟩ := e0
    intro e he
    simp only [PyDict_SetItemString] at he
    split at he
    · rcases List.mem_cons.1 he with h | h
      · exact Or.inr ⟨(k0, v0), List.mem_cons_self _ _, by rw [h]⟩
      · exact Or.inr ⟨e, List.mem_cons_of_mem _ h, rfl⟩
    · rcases List.mem_cons.1 he with h | h
      · exact Or.inr ⟨(k0, v0), List.mem_cons_self _ _, by rw [h]⟩
      · rcases ih e h with h1 | ⟨e1, he1, h1⟩
        · exact Or.inl h1
        · exact Or.inr ⟨e1, List.mem_cons_of_mem _ he1, h1⟩

/-- The decoding loop fails with `MemoryError` when an enumerated key has no value. -/
theorem tcmap2pydict_loop_missing (map : TCMAP) (iter : List (Bytes × Bytes)) :
    ∀ dict : List (PyObject × PyObject),
      (∃ r ∈ iter, tcmapget2 map r.1 = none) →
      tcmap2pydict_loop map iter dict =
        .null ⟨.MemoryError, "Could not allocate memory for map value."⟩ := by
  induction iter with
  | nil => intro _ h; simp at h
  | cons r rest ih =>
    intro dict h
    obtain ⟨kbuf, vbuf⟩ := r
    cases hget : tcmapget2 map kbuf with
    | none => simp [tcmap2pydict_loop, hget]
    | some vstr =>
      have hrest : ∃ r ∈ rest, tcmapget2 map r.1 = none := by
        obtain ⟨r, hr, hn⟩ := h
        rcases List.mem_cons.1 hr with h1 | h1
        · subst h1; simp [hget] at hn
        · exact ⟨r, h1, hn⟩
      simp only [tcmap2pydict_loop, hget]
      exact ih _ hrest

/-- The decoding loop when every enumerated key has a value: the dict it returns binds
every enumerated key to its value, keeps the other keys of the initial dict as they
were, and holds no key from elsewhere. -/
theorem tcmap2pydict_loop_found (map : TCMAP) (iter : List (Bytes × Bytes)) :
    ∀ dict : List (PyObject × PyObject),
      (∀ r ∈ iter, ∃ v, tcmapget2 map r.1 = some v) →
      ∃ record : List (PyObject × PyObject),
        tcmap2pydict_loop map iter dict = .ok (.dict record) ∧
        (∀ r ∈ iter, ∃ v, tcmapget2 map r.1 = some v ∧
          PyDict_GetItemString record (cstr r.1) = some (PyString_FromString v)) ∧
        (∀ k : Bytes, (∀ r ∈ iter, cstr r.1 ≠ k) →
          PyDict_GetItemString record k = PyDict_GetItemString dict k) ∧
        (∀ e ∈ record, (∃ e0 ∈ dict, e0.1 = e.1) ∨ ∃ r ∈ iter, e.1 = .str (cstr r.1)) := by
  induction iter with
  | nil =>
    intro dict _
    refine ⟨dict, rfl, by simp, fun k _ => rfl, fun e he => Or.inl ⟨e, he, rfl⟩⟩
  | cons r rest ih =>
    intro dict h
    obtain ⟨kbuf, vbuf⟩ := r
    obtain ⟨v, hv⟩ := h (kbuf, vbuf) (List.mem_cons_self _ _)
    obtain ⟨record, hrec, hbind, hother, hkeys⟩ :=
      ih (PyDict_SetItemString dict (cstr kbuf) (PyString_FromString v))
        (fun r hr => h r (List.mem_cons_of_mem _ hr))
    refine ⟨record, by simp [tcmap2pydict_loop, hv, hrec], ?_, ?_, ?_⟩
    · intro r hr
      rcases List.mem_cons.1 hr with h1 | h1
      · subst h1
        refine ⟨v, hv, ?_⟩
        by_cases hlater : ∃ r1 ∈ rest, cstr r1.1 = cstr kbuf
        · obtain ⟨r1, hr1, heq⟩ := hlater
          obtain ⟨v1, hv1, hb1⟩ := hbind r1 hr1
          have : v1 = v := by
            have h2 : tcmapget2 map r1.1 = tcmapget2 map kbuf := by
              simp [tcmapget2, heq]
            rw [hv1, hv] at h2
            exact Option.some.inj h2
          rw [← heq, hb1, this]
        · have hall : ∀ r1 ∈ rest, cstr r1.1 ≠ cstr kbuf :=
            fun r1 hr1 heq => hlater ⟨r1, hr1, heq⟩
          rw [hother (cstr kbuf) hall]
          exact getItemString_setItemString_same _ _ _
      · exact hbind r h1
    · intro k hk
      have hne : cstr kbuf ≠ k := hk (kbuf, vbuf) (List.mem_cons_self _ _)
      rw [hother k (fun r hr => hk r (List.mem_cons_of_mem _ hr))]
      exact getItemString_setItemString_other _ _ _ _ hne
    · intro e he
      rcases hkeys e he with ⟨e0, he0, h0⟩ | ⟨r, hr, h0⟩
      · rcases setItemString_keys _ _ _ e0 he0 with h1 | ⟨e1, he1, h1⟩
        · exact Or.inr ⟨(kbuf, vbuf), List.mem_cons_self _ _, by rw [← h0, h1]⟩
        · exact Or.inl ⟨e1, he1, by rw [h1, h0]⟩
      · exact Or.inr ⟨r, List.mem_cons_of_mem _ hr, h0⟩

/-- C15: if some key of the enumeration has no value on lookup, `tcmap2pydict` returns
`NULL` with `MemoryError` set (not `KeyError`, and no dict); if every enumerated key
has a value, it returns a dict, built from an empty one, that binds every enumerated
key to the string of its looked-up value and has no other key. -/
theorem tcmap2pydict_missing_or_complete (map : TCMAP) :
    ((∃ r ∈ map, tcmapget2 map r.1 = none) →
      tcmap2pydict map =
        .null ⟨.MemoryError, "Could not allocate memory for map value."⟩) ∧
    ((∀ r ∈ map, ∃ v, tcmapget2 map r.1 = some v) →
      ∃ record : List (PyObject × PyObject),
        tcmap2pydict map = .ok (.dict record) ∧
        (∀ r ∈ map, ∃ v, tcmapget2 map r.1 = some v ∧
          PyDict_GetItemString record (cstr r.1) = some (PyString_FromString v)) ∧
        (∀ e ∈ record, ∃ r ∈ map, e.1 = .str (cstr r.1))) := by
  constructor
  · intro h
    exact tcmap2pydict_loop_missing map map [] h
  · intro h
    obtain ⟨record, hrec, hbind, _, hkeys⟩ := tcmap2pydict_loop_found map map [] h
    refine ⟨record, hrec, hbind, ?_⟩
    intro e he
    rcases hkeys e he with ⟨e0, he0, _⟩ | h1
    · simp at he0
    · exact h1

/-- C15, two instances: the key `"k\0x"` is enumerated as `"k"`, which has no value;
the association `n -> a, k -> b` decodes in full. -/
theorem tcmap2pydict_missing_or_complete_witness :
    tcmap2pydict [([110], [97]), ([107, 0, 120], [98])] =
      .null ⟨.MemoryError, "Could not allocate memory for map value."⟩ ∧
    ∃ record : List (PyObject × PyObject),
      tcmap2pydict [([110], [97]), ([107], [98])] = .ok (.dict record) ∧
      (∀ r ∈ ([([110], [97]), ([107], [98])] : TCMAP),
        ∃ v, tcmapget2 [([110], [97]), ([107], [98])] r.1 = some v ∧
          PyDict_GetItemString record (cstr r.1) = some (PyString_FromString v)) ∧
      (∀ e ∈ record, ∃ r ∈ ([([110], [97]), ([107], [98])] : TCMAP),
        e.1 = .str (cstr r.1)) :=
  ⟨(tcmap2pydict_missing_or_complete [([110], [97]), ([107, 0, 120], [98])]).1
      ⟨([107, 0, 120], [98]), by simp, by decide⟩,
   (tcmap2pydict_missing_or_complete [([110], [97]), ([107], [98])]).2 (by
      intro r hr
      simp only [List.mem_cons, List.mem_singleton, List.not_mem_nil, or_false] at hr
      rcases hr with h | h <;> subst h
      · exact ⟨[97], by decide⟩
      · exact ⟨[98], by decide⟩)⟩

/-! ## `Tyrant.tblget` -/

/-- C16, the code at the failing input `tblget(key, default)`.  The format `s#` takes
one argument only: whatever the store holds, the call returns `NULL` with `TypeError`
before any store call, and does not return the default. -/
theorem tblget_rejects_default (st : Store) (hist : List StoreCall) (self : Tyrant) (key : Bytes)
    (default_value : PyObject) :
    Tyrant_tblget st hist self [.str key, default_value] =
      .returned none (some ⟨.TypeError, "argument mismatch"⟩) [] ∧
    (Tyrant_tblget st hist self [.str key, default_value]).raises .TypeError ∧
    Tyrant_tblget st hist self [.str key, default_value] ≠
      .returned (some default_value) none [.tcrdbtblget self.db key] := by
  have h : Tyrant_tblget st hist self [.str key, default_value] =
      .returned none (some ⟨.TypeError, "argument mismatch"⟩) [] := rfl
  refine ⟨h, ⟨_, _, h⟩, ?_⟩
  rw [h]
  simp

/-- With the key alone, `tblget` returns `None` when the store has no record and the
decoded record when it has one. -/
theorem tblget_one_argument (st : Store) (hist : List StoreCall) (self : Tyrant)
    (key : Bytes) :
    (st.tcrdbtblget hist self.db key = none →
      Tyrant_tblget st hist self [.str key] =
        .returned (some .none) none [.tcrdbtblget self.db key]) ∧
    (∀ (cols : TCMAP) (record : PyObject), st.tcrdbtblget hist self.db key = some cols →
      tcmap2pydict cols = .ok record →
      Tyrant_tblget st hist self [.str key] =
        .returned (some record) none [.tcrdbtblget self.db key]) := by
  constructor
  · intro h
    simp [Tyrant_tblget, parseKeyArgs, h]
  · intro cols record h hd
    simp [Tyrant_tblget, parseKeyArgs, h, hd]

/-! ## `TyrantQuery.addcond` -/

/-- C17, the claim as stated fails.  An operand or a column name with a zero byte is
refused by the format `s` with `TypeError`, an operator outside the range of a C `int`
by the format `i` with `OverflowError`; in each case nothing is registered. -/
theorem addcond_parse_counterexample :
    TyrantQuery_addcond ⟨⟨1, []⟩⟩ [.str [110], .int 0, .str [120, 0, 121]] [] =
      (.returned none (some ⟨.TypeError, "argument mismatch"⟩) [], ⟨⟨1, []⟩⟩) ∧
    TyrantQuery_addcond ⟨⟨1, []⟩⟩ [.str [110, 0, 109], .int 0, .str [120]] [] =
      (.returned none (some ⟨.TypeError, "argument mismatch"⟩) [], ⟨⟨1, []⟩⟩) ∧
    TyrantQuery_addcond ⟨⟨1, []⟩⟩ [.str [110], .int 2147483648, .str [120]] [] =
      (.returned none (some ⟨.OverflowError, "signed integer is out of range"⟩) [],
        ⟨⟨1, []⟩⟩) :=
  ⟨rfl, rfl, rfl⟩

/-- C17, as amended: for every column name and operand without a zero byte and every
operator that fits a C `int`, defined or not, `addcond(name, op, expr)` appends exactly
that triple after the conditions registered earlier, leaves those unchanged, issues no
store call and returns `None` with no exception set. -/
theorem addcond_registers_condition (self : TyrantQuery) (name expr : Bytes) (op : Int)
    (hname : (0 : Fin 256) ∉ name) (hexpr : (0 : Fin 256) ∉ expr)
    (hlo : -2147483648 ≤ op) (hhi : op ≤ 2147483647) :
    TyrantQuery_addcond self [.str name, .int op, .str expr] [] =
      (.returned (some .none) none [], ⟨⟨self.q.rdb, self.q.conds ++ [(name, op, expr)]⟩⟩) := by
  simp [TyrantQuery_addcond, parseAddcondArgs, bindArgs, parseCString, parseInt,
    tcrdbqryaddcond, hname, hexpr, hlo, hhi, cstr_of_no_zero hname, cstr_of_no_zero hexpr]

/-- C17, an instance of the amended claim: the undefined operator 12345 with an empty
operand, on a query that already has a condition. -/
theorem addcond_registers_condition_witness :
    TyrantQuery_addcond ⟨⟨1, [([97], 0, [98])]⟩⟩ [.str [110], .int 12345, .str []] [] =
      (.returned (some .none) none [],
        ⟨⟨1, [([97], 0, [98])] ++ [([110], 12345, [])]⟩⟩) :=
  addcond_registers_condition ⟨⟨1, [([97], 0, [98])]⟩⟩ [110] [] 12345 (by decide) (by decide) (by decide)
    (by decide)

/-! ## `Tyrant.__getitem__` -/

/-- C18: `db[key]` with a string key returns a string of exactly the bytes the store
yields; when the store yields no value it returns `NULL` with `KeyError` set if the
error code is `TCENOREC` and with `tokyotyrant.error` set for every other code, the
message being `tcrdberrmsg` of the code. -/
theorem subscript_value_or_fault (st : Store) (hist : List StoreCall) (self : Tyrant) (key : Bytes) :
    (∀ vbuf : Bytes, st.tcrdbget hist self.db key = some vbuf →
      Tyrant_subscript st hist self (.str key) =
        .returned (some (.str vbuf)) none [.tcrdbget self.db key]) ∧
    (st.tcrdbget hist self.db key = none →
      (st.tcrdbecode (hist ++ [.tcrdbget self.db key]) self.db = st.TCENOREC →
        Tyrant_subscript st hist self (.str key) =
          .returned none
            (some ⟨.KeyError,
              st.tcrdberrmsg (st.tcrdbecode (hist ++ [.tcrdbget self.db key]) self.db)⟩)
            [.tcrdbget self.db key]) ∧
      (st.tcrdbecode (hist ++ [.tcrdbget self.db key]) self.db ≠ st.TCENOREC →
        Tyrant_subscript st hist self (.str key) =
          .returned none
            (some ⟨.TyrantError,
              st.tcrdberrmsg (st.tcrdbecode (hist ++ [.tcrdbget self.db key]) self.db)⟩)
            [.tcrdbget self.db key])) := by
  refine ⟨?_, ?_⟩
  · intro vbuf h
    simp [Tyrant_subscript, h, PyString_FromStringAndSize]
  · intro h
    constructor <;> intro hc <;> simp [Tyrant_subscript, h, raise_tyrant_error, hc]

/-- C18, three instances: a stored value with a zero byte, a missing record, a failed
lookup. -/
theorem subscript_value_or_fault_witness :
    Tyrant_subscript (sampleStore (some [118, 0, 119]) none 0) [] ⟨1⟩ (.str [107]) =
      .returned (some (.str [118, 0, 119])) none [.tcrdbget 1 [107]] ∧
    Tyrant_subscript (sampleStore none none 22) [] ⟨1⟩ (.str [107]) =
      .returned none (some ⟨.KeyError, "no record found"⟩) [.tcrdbget 1 [107]] ∧
    Tyrant_subscript (sampleStore none none 5) [] ⟨1⟩ (.str [107]) =
      .returned none (some ⟨.TyrantError, "miscellaneous error"⟩) [.tcrdbget 1 [107]] :=
  ⟨(subscript_value_or_fault (sampleStore (some [118, 0, 119]) none 0) [] ⟨1⟩ [107]).1 [118, 0, 119] rfl,
   ((subscript_value_or_fault (sampleStore none none 22) [] ⟨1⟩ [107]).2 rfl).1 rfl,
   ((subscript_value_or_fault (sampleStore none none 5) [] ⟨1⟩ [107]).2 rfl).2 (by decide)⟩

/-! ## Non-string column names -/

/-- The encoding loop on entries whose values are all strings: a key that is not a
string, at any position, ends it in undefined behaviour. -/
theorem pydict2tcmap_loop_nonstring_key (entries : List (PyObject × PyObject)) :
    ∀ map : TCMAP,
      (∀ e ∈ entries, PyString_Check e.2 = true) →
      (∃ e ∈ entries, PyString_Check e.1 = false) →
      pydict2tcmap_loop entries map = .crash := by
  induction entries with
  | nil => intro _ _ h; simp at h
  | cons e rest ih =>
    intro map hv hk
    obtain ⟨key, value⟩ := e
    have hval : PyString_Check value = true := hv (key, value) (List.mem_cons_self _ _)
    cases value <;> simp [PyString_Check] at hval
    cases hkey : PyString_Check key with
    | false =>
      cases key <;> simp [PyString_Check] at hkey <;>
        simp [pydict2tcmap_loop, PyString_Check, PyString_AsString, tcmapput2]
    | true =>
      have hrest : ∃ e ∈ rest, PyString_Check e.1 = false := by
        obtain ⟨e, he, h⟩ := hk
        rcases List.mem_cons.1 he with h1 | h1
        · subst h1; simp [hkey] at h
        · exact ⟨e, h1, h⟩
      cases key <;> simp [PyString_Check] at hkey
      simp [pydict2tcmap_loop, PyString_Check, PyString_AsString, tcmapput2]
      exact ih _ (fun e h => hv e (List.mem_cons_of_mem _ h)) hrest

/-- C19, the code at the failing inputs `{1: "a"}` and `{"n": "a", 1: "b"}`.
`PyString_AsString(key)` is `NULL` for the integer key and `tcmapput2` takes its
`strlen`: `pydict2tcmap` and the table put end in undefined behaviour, not in a
`TypeError`. -/
theorem pydict2tcmap_nonstring_key_crashes (st : Store) (hist : List StoreCall) (self : Tyrant) (kbuf : Bytes) :
    pydict2tcmap (.dict [(.int 1, .str [97])]) = .crash ∧
    pydict2tcmap (.dict [(.str [110], .str [97]), (.int 1, .str [98])]) = .crash ∧
    Tyrant_tblput st hist self [.str kbuf, .dict [(.int 1, .str [97])]] = .crashed [] ∧
    ¬ (Tyrant_tblput st hist self [.str kbuf, .dict [(.int 1, .str [97])]]).raises
        .TypeError := by
  refine ⟨rfl, rfl, rfl, ?_⟩
  rintro ⟨msg, calls, h⟩
  simp [Tyrant_tblput, tblputWith, parsePutArgs, pydict2tcmap, pydict2tcmap_loop,
    PyString_Check, PyString_AsString, tcmapput2] at h

/-! ## `Tyrant.rnum` and `Tyrant.size` -/

/-- C20, the code at the failing inputs.  A record count of `2^63` is returned as
`-2^63` and a database size of `2^64 - 1` as `-1`: the `uint64_t` is handed to
`PyLong_FromLongLong`, which reads it as signed. -/
theorem rnum_size_sign_wrap :
    Tyrant_rnum { sampleStore none none 0 with tcrdbrnum := fun _ _ => 2 ^ 63 } [] ⟨1⟩ =
      .returned (some (.int (-9223372036854775808))) none [.tcrdbrnum 1] ∧
    Tyrant_size { sampleStore none none 0 with tcrdbsize := fun _ _ => 2 ^ 64 - 1 } [] ⟨1⟩ =
      .returned (some (.int (-1))) none [.tcrdbsize 1] := by
  constructor <;> simp [Tyrant_rnum, Tyrant_size, toUInt64, toLongLong, PyLong_FromLongLong]

/-- Below `2^63` the conversion keeps the value. -/
theorem toLongLong_of_lt (n : Nat) (h : n < 2 ^ 63) :
    toLongLong (toUInt64 n) = (n : Int) := by
  unfold toLongLong toUInt64
  split <;> omega

/-- From `2^63` on the conversion subtracts `2^64`, and the result is negative. -/
theorem toLongLong_of_ge (n : Nat) (hlo : 2 ^ 63 ≤ n) (hhi : n < 2 ^ 64) :
    toLongLong (toUInt64 n) = (n : Int) - 2 ^ 64 ∧ toLongLong (toUInt64 n) < 0 := by
  unfold toLongLong toUInt64
  split <;> omega

/-- A count or size below `2^63` is returned unchanged. -/
theorem rnum_size_below_2_63 (st : Store) (hist : List StoreCall) (self : Tyrant) :
    (st.tcrdbrnum hist self.db < 2 ^ 63 →
      Tyrant_rnum st hist self =
        .returned (some (.int (st.tcrdbrnum hist self.db))) none [.tcrdbrnum self.db]) ∧
    (st.tcrdbsize hist self.db < 2 ^ 63 →
      Tyrant_size st hist self =
        .returned (some (.int (st.tcrdbsize hist self.db))) none [.tcrdbsize self.db]) := by
  constructor <;> intro h
  · simp only [Tyrant_rnum, PyLong_FromLongLong, toLongLong_of_lt _ h]
  · simp only [Tyrant_size, PyLong_FromLongLong, toLongLong_of_lt _ h]

/-! ## `key in Tyrant` -/

/-- C21: for a string key, `key in db` issues the one value-size lookup, sets no
exception, and is true (the slot returns 1) exactly when the lookup returns a size
other than -1; it is false (the slot returns 0) exactly when the lookup returns -1.
For an operand that is not a string the slot returns -1 with `ValueError` set and
issues no call to the store. -/
theorem contains_iff_vsiz (st : Store) (hist : List StoreCall) (self : Tyrant)
    (value : PyObject) :
    (∀ key : Bytes, value = .str key →
      ((Tyrant_contains st hist self value).ret = 1 ↔
        st.tcrdbvsiz hist self.db key ≠ -1) ∧
      ((Tyrant_contains st hist self value).ret = 0 ↔
        st.tcrdbvsiz hist self.db key = -1) ∧
      (Tyrant_contains st hist self value).err = none ∧
      (Tyrant_contains st hist self value).calls = [.tcrdbvsiz self.db key]) ∧
    (PyString_Check value = false →
      (Tyrant_contains st hist self value).ret = -1 ∧
      (Tyrant_contains st hist self value).err =
        some ⟨.ValueError, "Expected value to be a string"⟩ ∧
      (Tyrant_contains st hist self value).calls = []) := by
  constructor
  · intro key hkey
    subst hkey
    by_cases h : st.tcrdbvsiz hist self.db key = -1 <;> simp [Tyrant_contains, h]
  · intro h
    cases value <;> simp [PyString_Check] at h <;> simp [Tyrant_contains]

/-- C21, four instances: a key stored with an empty value is contained, a key stored
with a value of three bytes is contained, a key whose lookup fails is not, and the
operand `5` is refused. -/
theorem contains_iff_vsiz_witness :
    (Tyrant_contains (sampleStore (some []) none 0) [] ⟨1⟩ (.str [107])).ret = 1 ∧
    (Tyrant_contains (sampleStore (some [118, 0, 119]) none 0) [] ⟨1⟩ (.str [107])).ret = 1 ∧
    (Tyrant_contains (sampleStore none none 5) [] ⟨1⟩ (.str [107])).ret = 0 ∧
    (Tyrant_contains (sampleStore none none 5) [] ⟨1⟩ (.str [107])).err = none ∧
    (Tyrant_contains (sampleStore none none 5) [] ⟨1⟩ (.int 5)).ret = -1 ∧
    (Tyrant_contains (sampleStore none none 5) [] ⟨1⟩ (.int 5)).err =
      some ⟨.ValueError, "Expected value to be a string"⟩ ∧
    (Tyrant_contains (sampleStore none none 5) [] ⟨1⟩ (.int 5)).calls = [] :=
  ⟨(((contains_iff_vsiz (sampleStore (some []) none 0) [] ⟨1⟩ (.str [107])).1
      [107] rfl).1).2 (by decide),
   (((contains_iff_vsiz (sampleStore (some [118, 0, 119]) none 0) [] ⟨1⟩ (.str [107])).1
      [107] rfl).1).2 (by decide),
   (((contains_iff_vsiz (sampleStore none none 5) [] ⟨1⟩ (.str [107])).1
      [107] rfl).2.1).2 rfl,
   ((contains_iff_vsiz (sampleStore none none 5) [] ⟨1⟩ (.str [107])).1 [107] rfl).2.2.1,
   ((contains_iff_vsiz (sampleStore none none 5) [] ⟨1⟩ (.int 5)).2 rfl).1,
   ((contains_iff_vsiz (sampleStore none none 5) [] ⟨1⟩ (.int 5)).2 rfl).2.1,
   ((contains_iff_vsiz (sampleStore none none 5) [] ⟨1⟩ (.int 5)).2 rfl).2.2⟩

end TokyoTyrant
